import Mathlib

/-! Tutorial 0010, Window.cpp: surface, swapchain, depth/stencil image and render pass

A shallow embedding of `Window.cpp`.  The driver and the `Renderer` are an
explicit value `Device` that answers every query and gives every device call
its result code.  A member function of `Window` becomes a function
`Device → Window → Run Window`, where `Run` keeps the ordered list of the
calls that were made and either the next state of the object or the reason
why the process was ended (`std::exit`, or the error check).

Unsigned 32-bit members are natural numbers; the one place where the source
computes with them (`minImageCount + 1`) is reduced modulo `2^32`.
Enumerators and bit masks carry the values of the Vulkan headers.
-/

namespace VkTutorial

/-! ## Values of the Vulkan headers -/

abbrev VkResult := Int
abbrev VkHandle := Nat
abbrev VkFormat := Nat
abbrev VkColorSpaceKHR := Nat
abbrev VkPresentModeKHR := Nat
abbrev VkImageLayout := Nat
abbrev VkFlags := Nat

abbrev VK_SUCCESS : VkResult := 0
abbrev VK_ERROR_OUT_OF_HOST_MEMORY : VkResult := -1
abbrev VK_ERROR_OUT_OF_DEVICE_MEMORY : VkResult := -2

abbrev UINT32_MAX : Nat := 4294967295

/-- Reduction of a natural number to an unsigned 32-bit value. -/
def u32 (n : Nat) : Nat := n % 4294967296

abbrev VK_NULL_HANDLE : VkHandle := 0
abbrev VK_TRUE : Nat := 1

abbrev VK_FORMAT_UNDEFINED : VkFormat := 0
abbrev VK_FORMAT_B8G8R8A8_UNORM : VkFormat := 44
abbrev VK_FORMAT_D16_UNORM : VkFormat := 124
abbrev VK_FORMAT_D32_SFLOAT : VkFormat := 126
abbrev VK_FORMAT_S8_UINT : VkFormat := 127
abbrev VK_FORMAT_D16_UNORM_S8_UINT : VkFormat := 128
abbrev VK_FORMAT_D24_UNORM_S8_UINT : VkFormat := 129
abbrev VK_FORMAT_D32_SFLOAT_S8_UINT : VkFormat := 130

abbrev VK_COLORSPACE_SRGB_NONLINEAR_KHR : VkColorSpaceKHR := 0

abbrev VK_PRESENT_MODE_IMMEDIATE_KHR : VkPresentModeKHR := 0
abbrev VK_PRESENT_MODE_MAILBOX_KHR : VkPresentModeKHR := 1
abbrev VK_PRESENT_MODE_FIFO_KHR : VkPresentModeKHR := 2
abbrev VK_PRESENT_MODE_FIFO_RELAXED_KHR : VkPresentModeKHR := 3

abbrev VK_FORMAT_FEATURE_DEPTH_STENCIL_ATTACHMENT_BIT : VkFlags := 0x200

abbrev VK_IMAGE_ASPECT_COLOR_BIT : VkFlags := 1
abbrev VK_IMAGE_ASPECT_DEPTH_BIT : VkFlags := 2
abbrev VK_IMAGE_ASPECT_STENCIL_BIT : VkFlags := 4

abbrev VK_IMAGE_USAGE_COLOR_ATTACHMENT_BIT : VkFlags := 0x10
abbrev VK_IMAGE_USAGE_DEPTH_STENCIL_ATTACHMENT_BIT : VkFlags := 0x20
abbrev VK_SHARING_MODE_EXCLUSIVE : Nat := 0
abbrev VK_SURFACE_TRANSFORM_IDENTITY_BIT_KHR : VkFlags := 1
abbrev VK_COMPOSITE_ALPHA_OPAQUE_BIT_KHR : VkFlags := 1
abbrev VK_QUEUE_FAMILY_IGNORED : Nat := 4294967295
abbrev VK_MEMORY_PROPERTY_DEVICE_LOCAL_BIT : VkFlags := 1

abbrev VK_IMAGE_TYPE_2D : Nat := 1
abbrev VK_IMAGE_VIEW_TYPE_2D : Nat := 1
abbrev VK_IMAGE_TILING_OPTIMAL : Nat := 0
abbrev VK_SAMPLE_COUNT_1_BIT : VkFlags := 1
abbrev VK_COMPONENT_SWIZZLE_IDENTITY : Nat := 0

abbrev VK_IMAGE_LAYOUT_UNDEFINED : VkImageLayout := 0
abbrev VK_IMAGE_LAYOUT_COLOR_ATTACHMENT_OPTIMAL : VkImageLayout := 2
abbrev VK_IMAGE_LAYOUT_DEPTH_STENCIL_ATTACHMENT_OPTIMAL : VkImageLayout := 3
abbrev VK_IMAGE_LAYOUT_PRESENT_SRC_KHR : VkImageLayout := 1000001002

abbrev VK_ATTACHMENT_LOAD_OP_LOAD : Nat := 0
abbrev VK_ATTACHMENT_LOAD_OP_CLEAR : Nat := 1
abbrev VK_ATTACHMENT_LOAD_OP_DONT_CARE : Nat := 2
abbrev VK_ATTACHMENT_STORE_OP_STORE : Nat := 0
abbrev VK_ATTACHMENT_STORE_OP_DONT_CARE : Nat := 1

abbrev VK_PIPELINE_BIND_POINT_GRAPHICS : Nat := 0

abbrev VK_STRUCTURE_TYPE_MEMORY_ALLOCATE_INFO : Nat := 5
abbrev VK_STRUCTURE_TYPE_IMAGE_CREATE_INFO : Nat := 14
abbrev VK_STRUCTURE_TYPE_IMAGE_VIEW_CREATE_INFO : Nat := 15
abbrev VK_STRUCTURE_TYPE_RENDER_PASS_CREATE_INFO : Nat := 38
abbrev VK_STRUCTURE_TYPE_SWAPCHAIN_CREATE_INFO_KHR : Nat := 1000001000

/-! ## Structures of the Vulkan headers (the members the source assigns or reads) -/

structure VkExtent2D where
  width : Nat
  height : Nat
deriving DecidableEq, Repr

structure VkExtent3D where
  width : Nat
  height : Nat
  depth : Nat
deriving DecidableEq, Repr

structure VkSurfaceCapabilitiesKHR where
  minImageCount : Nat
  maxImageCount : Nat
  currentExtent : VkExtent2D
deriving DecidableEq, Repr

structure VkSurfaceFormatKHR where
  format : VkFormat
  colorSpace : VkColorSpaceKHR
deriving DecidableEq, Repr

structure VkFormatProperties where
  linearTilingFeatures : VkFlags
  optimalTilingFeatures : VkFlags
  bufferFeatures : VkFlags
deriving DecidableEq, Repr

structure VkMemoryRequirements where
  size : Nat
  alignment : Nat
  memoryTypeBits : Nat
deriving DecidableEq, Repr

structure VkSwapchainCreateInfoKHR where
  sType : Nat
  surface : VkHandle
  minImageCount : Nat
  imageFormat : VkFormat
  imageColorSpace : VkColorSpaceKHR
  imageExtent : VkExtent2D
  imageArrayLayers : Nat
  imageUsage : VkFlags
  imageSharingMode : Nat
  queueFamilyIndexCount : Nat
  pQueueFamilyIndices : Option (List Nat)
  preTransform : VkFlags
  compositeAlpha : VkFlags
  presentMode : VkPresentModeKHR
  clipped : Nat
  oldSwapchain : VkHandle
deriving DecidableEq, Repr

structure VkComponentMapping where
  r : Nat
  g : Nat
  b : Nat
  a : Nat
deriving DecidableEq, Repr

structure VkImageSubresourceRange where
  aspectMask : VkFlags
  baseMipLevel : Nat
  levelCount : Nat
  baseArrayLayer : Nat
  layerCount : Nat
deriving DecidableEq, Repr

structure VkImageViewCreateInfo where
  sType : Nat
  image : VkHandle
  viewType : Nat
  format : VkFormat
  components : VkComponentMapping
  subresourceRange : VkImageSubresourceRange
deriving DecidableEq, Repr

structure VkImageCreateInfo where
  sType : Nat
  flags : VkFlags
  imageType : Nat
  format : VkFormat
  extent : VkExtent3D
  mipLevels : Nat
  arrayLayers : Nat
  samples : VkFlags
  tiling : Nat
  usage : VkFlags
  sharingMode : Nat
  queueFamilyIndexCount : Nat
  pQueueFamilyIndices : Option (List Nat)
  initialLayout : VkImageLayout
deriving DecidableEq, Repr

structure VkMemoryAllocateInfo where
  sType : Nat
  allocationSize : Nat
  memoryTypeIndex : Nat
deriving DecidableEq, Repr

structure VkAttachmentDescription where
  flags : VkFlags
  format : VkFormat
  samples : VkFlags
  loadOp : Nat
  storeOp : Nat
  stencilLoadOp : Nat
  stencilStoreOp : Nat
  initialLayout : VkImageLayout
  finalLayout : VkImageLayout
deriving DecidableEq, Repr

structure VkAttachmentReference where
  attachment : Nat
  layout : VkImageLayout
deriving DecidableEq, Repr

/-- A pointer member is `none` for `nullptr` and `some` of the array it points to. -/
structure VkSubpassDescription where
  flags : VkFlags
  pipelineBindPoint : Nat
  inputAttachmentCount : Nat
  pInputAttachments : Option (List VkAttachmentReference)
  colorAttachmentCount : Nat
  pColorAttachments : Option (List VkAttachmentReference)
  pResolveAttachments : Option (List VkAttachmentReference)
  pDepthStencilAttachment : Option VkAttachmentReference
  preserveAttachmentCount : Nat
  pPreserveAttachments : Option (List Nat)
deriving DecidableEq, Repr

structure VkSubpassDependency where
  srcSubpass : Nat
  dstSubpass : Nat
deriving DecidableEq, Repr

structure VkRenderPassCreateInfo where
  sType : Nat
  pNext : Option Nat
  flags : VkFlags
  attachmentCount : Nat
  pAttachments : Option (List VkAttachmentDescription)
  subpassCount : Nat
  pSubpasses : Option (List VkSubpassDescription)
  dependencyCount : Nat
  pDependencies : Option (List VkSubpassDependency)
deriving DecidableEq, Repr

/-! ## The device, the call log and the outcome of a run -/

/-- The places of `Window.cpp` where a device call hands back a `VkResult`
or a new handle. -/
inductive Site where
  | osWindow
  | osSurface
  | surfaceSupport
  | surfaceCapabilities
  | surfaceFormatCount
  | surfaceFormats
  | presentModeCount
  | presentModes
  | createSwapchain
  | swapchainImageCount
  | swapchainImages
  | createSwapchainImageView (i : Nat)
  | createDepthStencilImage
  | allocateDepthStencilMemory
  | bindDepthStencilMemory
  | createDepthStencilImageView
  | createRenderPass
deriving DecidableEq, Repr

/-- Everything the driver and the `Renderer` answer.  No member is constrained:
a theorem over all devices covers every driver. -/
structure Device where
  /-- the result code of the device call made at a site -/
  result : Site → VkResult
  /-- the handle written by the creating call made at a site -/
  handle : Site → VkHandle
  /-- the value written to `WSI_supported` -/
  WSI_supported : Bool
  /-- the value written to `_surface_capabilities` -/
  surface_capabilities : VkSurfaceCapabilitiesKHR
  /-- the surface formats the device reports -/
  surface_formats : List VkSurfaceFormatKHR
  /-- the presentation modes the device reports -/
  present_modes : List VkPresentModeKHR
  /-- the images the created swapchain owns -/
  swapchain_images : List VkHandle
  /-- the answer of `vkGetPhysicalDeviceFormatProperties` -/
  format_properties : VkFormat → VkFormatProperties
  /-- the answer of `vkGetImageMemoryRequirements` -/
  image_memory_requirements : VkMemoryRequirements
  /-- the answer of `FindMemoryTypeIndex` (a helper of `Shared.h`) for the
  requirements and property bits it is given -/
  FindMemoryTypeIndex : VkMemoryRequirements → VkFlags → Nat

/-- The two kinds of image view the file owns: those of the swapchain images
(made at line 177, destroyed at line 184) and that of the depth/stencil image
(made at line 266, destroyed at line 271). -/
inductive ViewKind where
  | swapchainImage
  | depthStencil
deriving DecidableEq, Repr

/-- A call that leaves `Window.cpp`, with the description it passes.  The
calls on image views also say which kind of view the calling line handles. -/
inductive Call where
  | InitOSWindow
  | DeInitOSWindow
  | UpdateOSWindow
  | InitOSSurface
  | vkGetPhysicalDeviceSurfaceSupportKHR
  | vkGetPhysicalDeviceSurfaceCapabilitiesKHR
  | vkGetPhysicalDeviceSurfaceFormatsKHR
  | vkGetPhysicalDeviceSurfacePresentModesKHR
  | vkCreateSwapchainKHR (info : VkSwapchainCreateInfoKHR)
  | vkGetSwapchainImagesKHR
  | vkCreateImageView (kind : ViewKind) (info : VkImageViewCreateInfo)
  | vkGetPhysicalDeviceFormatProperties (format : VkFormat)
  | vkCreateImage (info : VkImageCreateInfo)
  | vkGetImageMemoryRequirements (image : VkHandle)
  | vkAllocateMemory (info : VkMemoryAllocateInfo)
  | vkBindImageMemory (image : VkHandle) (memory : VkHandle) (memoryOffset : Nat)
  | vkCreateRenderPass (info : VkRenderPassCreateInfo)
  | vkDestroyRenderPass (renderPass : VkHandle)
  | vkDestroyImageView (kind : ViewKind) (view : VkHandle)
  | vkFreeMemory (memory : VkHandle)
  | vkDestroyImage (image : VkHandle)
  | vkDestroySwapchainKHR (swapchain : VkHandle)
  | vkDestroySurfaceKHR (surface : VkHandle)
deriving DecidableEq, Repr

/-- Why the process was ended during initialisation. -/
inductive Fatal where
  /-- line 65: "WSI not supported" -/
  | wsiNotSupported
  /-- line 79: "Surface formats missing." -/
  | surfaceFormatsMissing
  /-- line 207: "Depth stencil format not selected." -/
  | depthStencilFormatNotSelected
  /-- the error check was given this result code -/
  | vulkanRuntimeError (code : VkResult)
deriving DecidableEq, Repr

/-- The calls made so far, in order, and how the run stands: the value
computed, or the fatal error at which it stopped. -/
structure Run (α : Type) where
  calls : List Call
  result : Except Fatal α

namespace Run

/-- Nothing is called. -/
def ret {α : Type} (a : α) : Run α := ⟨[], .ok a⟩

/-- Sequencing: after a fatal error nothing more is called. -/
def andThen {α β : Type} (x : Run α) (f : α → Run β) : Run β :=
  match x.result with
  | .error e => ⟨x.calls, .error e⟩
  | .ok a => ⟨x.calls ++ (f a).calls, (f a).result⟩

instance : Monad Run where
  pure := ret
  bind := andThen

/-- One call that leaves the file and hands back `a`. -/
def call {α : Type} (c : Call) (a : α) : Run α := ⟨[c], .ok a⟩

/-- The lines `assert( 0 && ... ); std::exit( -1 );`. -/
def exit {α : Type} (e : Fatal) : Run α := ⟨[], .error e⟩

end Run

/-- Modelled from the spec: `ErrorCheck` is defined in `Shared.cpp`, outside
`Window.cpp`.  The specification says of it that it is "expected
to log/abort on non-success codes": a result code other than `VK_SUCCESS` ends
the run, `VK_SUCCESS` lets it go on. -/
def ErrorCheck (result : VkResult) : Run Unit :=
  if result = VK_SUCCESS then Run.ret () else Run.exit (Fatal.vulkanRuntimeError result)

/-! ## The device calls of the file

Each one is logged and hands back its result code; the values it writes are
read from the device where the source reads them. -/

def vkGetPhysicalDeviceSurfaceSupportKHR (d : Device) : Run VkResult :=
  Run.call Call.vkGetPhysicalDeviceSurfaceSupportKHR (d.result Site.surfaceSupport)

def vkGetPhysicalDeviceSurfaceCapabilitiesKHR (d : Device) : Run VkResult :=
  Run.call Call.vkGetPhysicalDeviceSurfaceCapabilitiesKHR (d.result Site.surfaceCapabilities)

def vkGetPhysicalDeviceSurfaceFormatsKHR (d : Device) (site : Site) : Run VkResult :=
  Run.call Call.vkGetPhysicalDeviceSurfaceFormatsKHR (d.result site)

def vkGetPhysicalDeviceSurfacePresentModesKHR (d : Device) (site : Site) : Run VkResult :=
  Run.call Call.vkGetPhysicalDeviceSurfacePresentModesKHR (d.result site)

def vkCreateSwapchainKHR (d : Device) (info : VkSwapchainCreateInfoKHR) : Run VkResult :=
  Run.call (Call.vkCreateSwapchainKHR info) (d.result Site.createSwapchain)

def vkGetSwapchainImagesKHR (d : Device) (site : Site) : Run VkResult :=
  Run.call Call.vkGetSwapchainImagesKHR (d.result site)

def vkCreateImageView (d : Device) (site : Site) (kind : ViewKind)
    (info : VkImageViewCreateInfo) : Run VkResult :=
  Run.call (Call.vkCreateImageView kind info) (d.result site)

def vkGetPhysicalDeviceFormatProperties (d : Device) (format : VkFormat) :
    Run VkFormatProperties :=
  Run.call (Call.vkGetPhysicalDeviceFormatProperties format) (d.format_properties format)

def vkCreateImage (d : Device) (info : VkImageCreateInfo) : Run VkResult :=
  Run.call (Call.vkCreateImage info) (d.result Site.createDepthStencilImage)

def vkGetImageMemoryRequirements (d : Device) (image : VkHandle) : Run VkMemoryRequirements :=
  Run.call (Call.vkGetImageMemoryRequirements image) d.image_memory_requirements

def vkAllocateMemory (d : Device) (info : VkMemoryAllocateInfo) : Run VkResult :=
  Run.call (Call.vkAllocateMemory info) (d.result Site.allocateDepthStencilMemory)

def vkBindImageMemory (d : Device) (image memory : VkHandle) (memoryOffset : Nat) :
    Run VkResult :=
  Run.call (Call.vkBindImageMemory image memory memoryOffset)
    (d.result Site.bindDepthStencilMemory)

def vkCreateRenderPass (d : Device) (info : VkRenderPassCreateInfo) : Run VkResult :=
  Run.call (Call.vkCreateRenderPass info) (d.result Site.createRenderPass)

/-! ## The class `Window` -/

/-- The data members of `Window`. -/
structure Window where
  _surface_size_x : Nat
  _surface_size_y : Nat
  _window_name : String
  _window_should_run : Bool
  _surface : VkHandle
  _surface_capabilities : VkSurfaceCapabilitiesKHR
  _surface_format : VkSurfaceFormatKHR
  _swapchain : VkHandle
  _swapchain_image_count : Nat
  _swapchain_images : List VkHandle
  _swapchain_image_views : List VkHandle
  _depth_stencil_image : VkHandle
  _depth_stencil_image_memory : VkHandle
  _depth_stencil_image_view : VkHandle
  _depth_stencil_format : VkFormat
  _stencil_available : Bool
  _render_pass : VkHandle
deriving DecidableEq, Repr

/-- The effect of `std::vector::resize`: the first `n` elements are kept and
value-initialised ones fill up to `n`. -/
def resize (l : List VkHandle) (n : Nat) : List VkHandle :=
  l.take n ++ List.replicate (n - l.length) VK_NULL_HANDLE

namespace Window

/-- Modelled from the spec: `_InitOSWindow` is platform code defined outside
`Window.cpp`; it is the opaque service that opens the native window. -/
def _InitOSWindow (_d : Device) (w : Window) : Run Window :=
  Run.call Call.InitOSWindow w

/-- Modelled from the spec: `_DeInitOSWindow` is platform code defined outside
`Window.cpp`; it closes the native window. -/
def _DeInitOSWindow (w : Window) : Run Window :=
  Run.call Call.DeInitOSWindow w

/-- Modelled from the spec: `_UpdateOSWindow` is platform code defined outside
`Window.cpp`; it polls the events of the native window. -/
def _UpdateOSWindow (w : Window) : Run Window :=
  Run.call Call.UpdateOSWindow w

/-- Modelled from the spec: `_InitOSSurface` is platform code defined outside
`Window.cpp`; it "creates a native surface handle" and stores it. -/
def _InitOSSurface (d : Device) (w : Window) : Run Window :=
  Run.call Call.InitOSSurface { w with _surface := d.handle Site.osSurface }

/-- Lines 45 to 48. -/
def Close (w : Window) : Window :=
  { w with _window_should_run := false }

/-- Lines 50 to 54. -/
def Update (w : Window) : Run (Bool × Window) := do
  let w ← _UpdateOSWindow w
  return (w._window_should_run, w)

/-- Lines 56 to 91. -/
def _InitSurface (d : Device) (w : Window) : Run Window := do
  let w ← _InitOSSurface d w
  let _ ← vkGetPhysicalDeviceSurfaceSupportKHR d
  let WSI_supported := d.WSI_supported
  if !WSI_supported then
    Run.exit Fatal.wsiNotSupported
  let _ ← vkGetPhysicalDeviceSurfaceCapabilitiesKHR d
  let w := { w with _surface_capabilities := d.surface_capabilities }
  let w :=
    if w._surface_capabilities.currentExtent.width < UINT32_MAX then
      { w with
        _surface_size_x := w._surface_capabilities.currentExtent.width
        _surface_size_y := w._surface_capabilities.currentExtent.height }
    else w
  let _ ← vkGetPhysicalDeviceSurfaceFormatsKHR d Site.surfaceFormatCount
  let format_count := d.surface_formats.length
  if format_count = 0 then
    Run.exit Fatal.surfaceFormatsMissing
  let _ ← vkGetPhysicalDeviceSurfaceFormatsKHR d Site.surfaceFormats
  let formats := d.surface_formats
  let formats_0 := formats.getD 0 ⟨VK_FORMAT_UNDEFINED, 0⟩
  if formats_0.format = VK_FORMAT_UNDEFINED then
    return { w with
      _surface_format := ⟨VK_FORMAT_B8G8R8A8_UNORM, VK_COLORSPACE_SRGB_NONLINEAR_KHR⟩ }
  else
    return { w with _surface_format := formats_0 }

/-- Lines 93 to 96. -/
def _DeInitSurface (w : Window) : Run Window :=
  Run.call (Call.vkDestroySurfaceKHR w._surface) w

/-- Lines 109 to 112: the image count that will be asked for. -/
def _InitSwapchain_image_count (w : Window) : Nat :=
  let count := w._swapchain_image_count
  let count :=
    if count < u32 (w._surface_capabilities.minImageCount + 1) then
      u32 (w._surface_capabilities.minImageCount + 1)
    else count
  if w._surface_capabilities.maxImageCount > 0 then
    if count > w._surface_capabilities.maxImageCount then
      w._surface_capabilities.maxImageCount
    else count
  else count

/-- Lines 120 to 122: the loop over `present_mode_list`. -/
def _InitSwapchain_present_mode : List VkPresentModeKHR → VkPresentModeKHR → VkPresentModeKHR
  | [], present_mode => present_mode
  | m :: rest, present_mode =>
    _InitSwapchain_present_mode rest
      (if m = VK_PRESENT_MODE_MAILBOX_KHR then m else present_mode)

/-- Lines 125 to 142: the description handed to `vkCreateSwapchainKHR`. -/
def swapchain_create_info (w : Window) (present_mode : VkPresentModeKHR) :
    VkSwapchainCreateInfoKHR :=
  { sType := VK_STRUCTURE_TYPE_SWAPCHAIN_CREATE_INFO_KHR
    surface := w._surface
    minImageCount := w._swapchain_image_count
    imageFormat := w._surface_format.format
    imageColorSpace := w._surface_format.colorSpace
    imageExtent := ⟨w._surface_size_x, w._surface_size_y⟩
    imageArrayLayers := 1
    imageUsage := VK_IMAGE_USAGE_COLOR_ATTACHMENT_BIT
    imageSharingMode := VK_SHARING_MODE_EXCLUSIVE
    queueFamilyIndexCount := 0
    pQueueFamilyIndices := none
    preTransform := VK_SURFACE_TRANSFORM_IDENTITY_BIT_KHR
    compositeAlpha := VK_COMPOSITE_ALPHA_OPAQUE_BIT_KHR
    presentMode := present_mode
    clipped := VK_TRUE
    oldSwapchain := VK_NULL_HANDLE }

/-- Lines 98 to 147. -/
def _InitSwapchain (d : Device) (w : Window) : Run Window := do
  let w := { w with _swapchain_image_count := _InitSwapchain_image_count w }
  let present_mode := VK_PRESENT_MODE_FIFO_KHR
  ErrorCheck (← vkGetPhysicalDeviceSurfacePresentModesKHR d Site.presentModeCount)
  ErrorCheck (← vkGetPhysicalDeviceSurfacePresentModesKHR d Site.presentModes)
  let present_mode_list := d.present_modes
  let present_mode := _InitSwapchain_present_mode present_mode_list present_mode
  let swapchain_create_info := swapchain_create_info w present_mode
  ErrorCheck (← vkCreateSwapchainKHR d swapchain_create_info)
  let w := { w with _swapchain := d.handle Site.createSwapchain }
  ErrorCheck (← vkGetSwapchainImagesKHR d Site.swapchainImageCount)
  return { w with _swapchain_image_count := d.swapchain_images.length }

/-- Lines 149 to 152. -/
def _DeInitSwapchain (w : Window) : Run Window :=
  Run.call (Call.vkDestroySwapchainKHR w._swapchain) w

/-- Lines 161 to 178: the passes of the loop from index `i` on, `todo` of them. -/
def _InitSwapchainImages_loop (d : Device) : Nat → Nat → Window → Run Window
  | 0, _, w => Run.ret w
  | todo + 1, i, w => do
    let image_view_create_info : VkImageViewCreateInfo :=
      { sType := VK_STRUCTURE_TYPE_IMAGE_VIEW_CREATE_INFO
        image := w._swapchain_images.getD i VK_NULL_HANDLE
        viewType := VK_IMAGE_VIEW_TYPE_2D
        format := w._surface_format.format
        components :=
          { r := VK_COMPONENT_SWIZZLE_IDENTITY
            g := VK_COMPONENT_SWIZZLE_IDENTITY
            b := VK_COMPONENT_SWIZZLE_IDENTITY
            a := VK_COMPONENT_SWIZZLE_IDENTITY }
        subresourceRange :=
          { aspectMask := VK_IMAGE_ASPECT_COLOR_BIT
            baseMipLevel := 0
            levelCount := 1
            baseArrayLayer := 0
            layerCount := 1 } }
    ErrorCheck (← vkCreateImageView d (Site.createSwapchainImageView i)
      ViewKind.swapchainImage image_view_create_info)
    let w := { w with
      _swapchain_image_views :=
        w._swapchain_image_views.set i (d.handle (Site.createSwapchainImageView i)) }
    _InitSwapchainImages_loop d todo (i + 1) w

/-- Lines 154 to 179. -/
def _InitSwapchainImages (d : Device) (w : Window) : Run Window := do
  let w := { w with _swapchain_images := resize w._swapchain_images w._swapchain_image_count }
  let w := { w with
    _swapchain_image_views := resize w._swapchain_image_views w._swapchain_image_count }
  ErrorCheck (← vkGetSwapchainImagesKHR d Site.swapchainImages)
  let w := { w with
    _swapchain_image_count := min w._swapchain_image_count d.swapchain_images.length
    _swapchain_images :=
      d.swapchain_images.take w._swapchain_image_count
        ++ w._swapchain_images.drop d.swapchain_images.length }
  _InitSwapchainImages_loop d w._swapchain_image_count 0 w

/-- Lines 183 to 185: the loop over `_swapchain_image_views`. -/
def _DeInitSwapchainImages_loop : List VkHandle → Run Unit
  | [] => Run.ret ()
  | view :: rest => do
    Run.call (Call.vkDestroyImageView ViewKind.swapchainImage view) ()
    _DeInitSwapchainImages_loop rest

/-- Lines 181 to 186. -/
def _DeInitSwapchainImages (w : Window) : Run Window := do
  _DeInitSwapchainImages_loop w._swapchain_image_views
  return w

/-- Lines 191 to 197. -/
def try_formats : List VkFormat :=
  [ VK_FORMAT_D32_SFLOAT_S8_UINT,
    VK_FORMAT_D24_UNORM_S8_UINT,
    VK_FORMAT_D16_UNORM_S8_UINT,
    VK_FORMAT_D32_SFLOAT,
    VK_FORMAT_D16_UNORM ]

/-- Lines 198 to 205: the loop over the formats still to try, left by `break`
at the first format that passes the test of line 201. -/
def _InitDepthStencilImage_loop (d : Device) : List VkFormat → Window → Run Window
  | [], w => Run.ret w
  | f :: rest, w => do
    let format_properties ← vkGetPhysicalDeviceFormatProperties d f
    if format_properties.optimalTilingFeatures
        &&& VK_FORMAT_FEATURE_DEPTH_STENCIL_ATTACHMENT_BIT ≠ 0 then
      return { w with _depth_stencil_format := f }
    else
      _InitDepthStencilImage_loop d rest w

/-- Lines 218 to 234: the description handed to `vkCreateImage`. -/
def depth_stencil_image_create_info (w : Window) : VkImageCreateInfo :=
  { sType := VK_STRUCTURE_TYPE_IMAGE_CREATE_INFO
    flags := 0
    imageType := VK_IMAGE_TYPE_2D
    format := w._depth_stencil_format
    extent := ⟨w._surface_size_x, w._surface_size_y, 1⟩
    mipLevels := 1
    arrayLayers := 1
    samples := VK_SAMPLE_COUNT_1_BIT
    tiling := VK_IMAGE_TILING_OPTIMAL
    usage := VK_IMAGE_USAGE_DEPTH_STENCIL_ATTACHMENT_BIT
    sharingMode := VK_SHARING_MODE_EXCLUSIVE
    queueFamilyIndexCount := VK_QUEUE_FAMILY_IGNORED
    pQueueFamilyIndices := none
    initialLayout := VK_IMAGE_LAYOUT_UNDEFINED }

/-- Lines 251 to 264: the description handed to `vkCreateImageView` for the
depth/stencil image. -/
def depth_stencil_image_view_create_info (w : Window) : VkImageViewCreateInfo :=
  { sType := VK_STRUCTURE_TYPE_IMAGE_VIEW_CREATE_INFO
    image := w._depth_stencil_image
    viewType := VK_IMAGE_VIEW_TYPE_2D
    format := w._depth_stencil_format
    components :=
      { r := VK_COMPONENT_SWIZZLE_IDENTITY
        g := VK_COMPONENT_SWIZZLE_IDENTITY
        b := VK_COMPONENT_SWIZZLE_IDENTITY
        a := VK_COMPONENT_SWIZZLE_IDENTITY }
    subresourceRange :=
      { aspectMask :=
          VK_IMAGE_ASPECT_DEPTH_BIT
            ||| (if w._stencil_available then VK_IMAGE_ASPECT_STENCIL_BIT else 0)
        baseMipLevel := 0
        levelCount := 1
        baseArrayLayer := 0
        layerCount := 1 } }

/-- Lines 188 to 267. -/
def _InitDepthStencilImage (d : Device) (w : Window) : Run Window := do
  let w ← _InitDepthStencilImage_loop d try_formats w
  if w._depth_stencil_format = VK_FORMAT_UNDEFINED then
    Run.exit Fatal.depthStencilFormatNotSelected
  let w :=
    if w._depth_stencil_format = VK_FORMAT_D32_SFLOAT_S8_UINT
        ∨ w._depth_stencil_format = VK_FORMAT_D24_UNORM_S8_UINT
        ∨ w._depth_stencil_format = VK_FORMAT_D16_UNORM_S8_UINT
        ∨ w._depth_stencil_format = VK_FORMAT_S8_UINT then
      { w with _stencil_available := true }
    else w
  let image_create_info := depth_stencil_image_create_info w
  let _ ← vkCreateImage d image_create_info
  let w := { w with _depth_stencil_image := d.handle Site.createDepthStencilImage }
  let image_memory_requirements ← vkGetImageMemoryRequirements d w._depth_stencil_image
  let memory_index :=
    d.FindMemoryTypeIndex image_memory_requirements VK_MEMORY_PROPERTY_DEVICE_LOCAL_BIT
  let memory_allocate_info : VkMemoryAllocateInfo :=
    { sType := VK_STRUCTURE_TYPE_MEMORY_ALLOCATE_INFO
      allocationSize := image_memory_requirements.size
      memoryTypeIndex := memory_index }
  let _ ← vkAllocateMemory d memory_allocate_info
  let w := { w with _depth_stencil_image_memory := d.handle Site.allocateDepthStencilMemory }
  let _ ← vkBindImageMemory d w._depth_stencil_image w._depth_stencil_image_memory 0
  let image_view_create_info := depth_stencil_image_view_create_info w
  let _ ← vkCreateImageView d Site.createDepthStencilImageView
    ViewKind.depthStencil image_view_create_info
  return { w with _depth_stencil_image_view := d.handle Site.createDepthStencilImageView }

/-- Lines 269 to 274. -/
def _DeInitDepthStencilImage (w : Window) : Run Window := do
  Run.call (Call.vkDestroyImageView ViewKind.depthStencil w._depth_stencil_image_view) ()
  Run.call (Call.vkFreeMemory w._depth_stencil_image_memory) ()
  Run.call (Call.vkDestroyImage w._depth_stencil_image) ()
  return w

/-- Lines 278 to 330: the description handed to `vkCreateRenderPass`. -/
def render_pass_create_info (w : Window) : VkRenderPassCreateInfo :=
  let attachment_descriptions : List VkAttachmentDescription :=
    [ { flags := 0
        format := w._depth_stencil_format
        samples := VK_SAMPLE_COUNT_1_BIT
        loadOp := VK_ATTACHMENT_LOAD_OP_CLEAR
        storeOp := VK_ATTACHMENT_STORE_OP_STORE
        stencilLoadOp := VK_ATTACHMENT_LOAD_OP_LOAD
        stencilStoreOp := VK_ATTACHMENT_STORE_OP_STORE
        initialLayout := VK_IMAGE_LAYOUT_UNDEFINED
        finalLayout := VK_IMAGE_LAYOUT_DEPTH_STENCIL_ATTACHMENT_OPTIMAL },
      { flags := 0
        format := w._surface_format.format
        samples := VK_SAMPLE_COUNT_1_BIT
        loadOp := VK_ATTACHMENT_LOAD_OP_CLEAR
        storeOp := VK_ATTACHMENT_STORE_OP_STORE
        stencilLoadOp := VK_ATTACHMENT_LOAD_OP_DONT_CARE
        stencilStoreOp := VK_ATTACHMENT_STORE_OP_DONT_CARE
        initialLayout := VK_IMAGE_LAYOUT_UNDEFINED
        finalLayout := VK_IMAGE_LAYOUT_PRESENT_SRC_KHR } ]
  let subpass_0_depth_stencil_attref : VkAttachmentReference :=
    { attachment := 0
      layout := VK_IMAGE_LAYOUT_DEPTH_STENCIL_ATTACHMENT_OPTIMAL }
  let subpass_0_color_attrefs : List VkAttachmentReference :=
    [ { attachment := 1
        layout := VK_IMAGE_LAYOUT_COLOR_ATTACHMENT_OPTIMAL } ]
  let subpass_description : List VkSubpassDescription :=
    [ { flags := 0
        pipelineBindPoint := VK_PIPELINE_BIND_POINT_GRAPHICS
        inputAttachmentCount := 0
        pInputAttachments := none
        colorAttachmentCount := subpass_0_color_attrefs.length
        pColorAttachments := some subpass_0_color_attrefs
        pResolveAttachments := none
        pDepthStencilAttachment := some subpass_0_depth_stencil_attref
        preserveAttachmentCount := 0
        pPreserveAttachments := none } ]
  { sType := VK_STRUCTURE_TYPE_RENDER_PASS_CREATE_INFO
    pNext := none
    flags := 0
    attachmentCount := attachment_descriptions.length
    pAttachments := some attachment_descriptions
    subpassCount := subpass_description.length
    pSubpasses := some subpass_description
    dependencyCount := 0
    pDependencies := none }

/-- Lines 276 to 333. -/
def _InitRenderPass (d : Device) (w : Window) : Run Window := do
  ErrorCheck (← vkCreateRenderPass d (render_pass_create_info w))
  return { w with _render_pass := d.handle Site.createRenderPass }

/-- Lines 335 to 338. -/
def _DeInitRenderPass (w : Window) : Run Window :=
  Run.call (Call.vkDestroyRenderPass w._render_pass) w

/-- Lines 19 to 32, the constructor.  `init` holds the members as their
initialisers in `Window.h` leave them before the body runs. -/
def ctor (d : Device) (init : Window) (size_x size_y : Nat) (name : String) : Run Window := do
  let w := { init with
    _surface_size_x := size_x
    _surface_size_y := size_y
    _window_name := name }
  let w ← _InitOSWindow d w
  let w ← _InitSurface d w
  let w ← _InitSwapchain d w
  let w ← _InitSwapchainImages d w
  let w ← _InitDepthStencilImage d w
  _InitRenderPass d w

/-- Lines 34 to 42, the destructor. -/
def dtor (w : Window) : Run Window := do
  let w ← _DeInitRenderPass w
  let w ← _DeInitDepthStencilImage w
  let w ← _DeInitSwapchainImages w
  let w ← _DeInitSwapchain w
  let w ← _DeInitSurface w
  _DeInitOSWindow w

end Window

/-! ## Reading a call log -/

/-- What the claims count as one step of construction or teardown. -/
inductive Resource where
  | osWindow
  | surface
  | swapchain
  | swapchainImageView
  | depthStencilImage
  | depthStencilMemory
  | depthStencilView
  | renderPass
deriving DecidableEq, Repr

/-- The resource a logged call brings into being, if any. -/
def created : Call → Option Resource
  | Call.InitOSWindow => some Resource.osWindow
  | Call.InitOSSurface => some Resource.surface
  | Call.vkCreateSwapchainKHR _ => some Resource.swapchain
  | Call.vkCreateImageView ViewKind.swapchainImage _ => some Resource.swapchainImageView
  | Call.vkCreateImage _ => some Resource.depthStencilImage
  | Call.vkAllocateMemory _ => some Resource.depthStencilMemory
  | Call.vkCreateImageView ViewKind.depthStencil _ => some Resource.depthStencilView
  | Call.vkCreateRenderPass _ => some Resource.renderPass
  | _ => none

/-- The resource a logged call releases, if any. -/
def destroyed : Call → Option Resource
  | Call.vkDestroyRenderPass _ => some Resource.renderPass
  | Call.vkDestroyImageView ViewKind.depthStencil _ => some Resource.depthStencilView
  | Call.vkFreeMemory _ => some Resource.depthStencilMemory
  | Call.vkDestroyImage _ => some Resource.depthStencilImage
  | Call.vkDestroyImageView ViewKind.swapchainImage _ => some Resource.swapchainImageView
  | Call.vkDestroySwapchainKHR _ => some Resource.swapchain
  | Call.vkDestroySurfaceKHR _ => some Resource.surface
  | Call.DeInitOSWindow => some Resource.osWindow
  | _ => none

/-- The resources a run brings into being, in the order of its calls. -/
def construction {α : Type} (r : Run α) : List Resource :=
  r.calls.filterMap created

/-- The resources a run releases, in the order of its calls. -/
def teardown {α : Type} (r : Run α) : List Resource :=
  r.calls.filterMap destroyed

/-- A device on which every call succeeds: two surface formats, the second
presentation mode is mailbox, three swapchain images, and the depth formats
supported from `D24_UNORM_S8_UINT` on. -/
def sampleDevice : Device :=
  { result := fun _ => VK_SUCCESS
    handle := fun s =>
      match s with
      | Site.createSwapchainImageView i => 100 + i
      | Site.osSurface => 1
      | Site.createSwapchain => 2
      | Site.createDepthStencilImage => 3
      | Site.allocateDepthStencilMemory => 4
      | Site.createDepthStencilImageView => 5
      | Site.createRenderPass => 6
      | _ => 0
    WSI_supported := true
    surface_capabilities :=
      { minImageCount := 2, maxImageCount := 8, currentExtent := ⟨800, 600⟩ }
    surface_formats :=
      [⟨VK_FORMAT_B8G8R8A8_UNORM, VK_COLORSPACE_SRGB_NONLINEAR_KHR⟩, ⟨37, 0⟩]
    present_modes := [VK_PRESENT_MODE_FIFO_KHR, VK_PRESENT_MODE_MAILBOX_KHR]
    swapchain_images := [11, 12, 13]
    format_properties := fun f =>
      if f = VK_FORMAT_D32_SFLOAT_S8_UINT then ⟨0, 0, 0⟩
      else ⟨0, VK_FORMAT_FEATURE_DEPTH_STENCIL_ATTACHMENT_BIT, 0⟩
    image_memory_requirements := ⟨1920000, 256, 3⟩
    FindMemoryTypeIndex := fun _ _ => 0 }

/-- The members as the initialisers of `Window.h` leave them: two images asked
for, no depth/stencil format selected yet, no stencil. -/
def sampleInit : Window :=
  { _surface_size_x := 512
    _surface_size_y := 512
    _window_name := ""
    _window_should_run := true
    _surface := VK_NULL_HANDLE
    _surface_capabilities := ⟨0, 0, ⟨0, 0⟩⟩
    _surface_format := ⟨VK_FORMAT_UNDEFINED, 0⟩
    _swapchain := VK_NULL_HANDLE
    _swapchain_image_count := 2
    _swapchain_images := []
    _swapchain_image_views := []
    _depth_stencil_image := VK_NULL_HANDLE
    _depth_stencil_image_memory := VK_NULL_HANDLE
    _depth_stencil_image_view := VK_NULL_HANDLE
    _depth_stencil_format := VK_FORMAT_UNDEFINED
    _stencil_available := false
    _render_pass := VK_NULL_HANDLE }

/-- The descriptions handed to `vkCreateSwapchainKHR` during a run, in order. -/
def swapchainInfos {α : Type} (r : Run α) : List VkSwapchainCreateInfoKHR :=
  r.calls.filterMap fun c =>
    match c with
    | Call.vkCreateSwapchainKHR info => some info
    | _ => none

/-! ## Devices and objects to evaluate on, and what the statements read off a run -/

/-- The state in which `_InitSwapchain` fills in the description of the swapchain. -/
def atSwapchainCreation (w : Window) : Window :=
  { w with _swapchain_image_count := Window._InitSwapchain_image_count w }

/-- The object as `_InitSurface` leaves it on `sampleDevice`. -/
def sampleSurfaceWindow : Window :=
  { sampleInit with
    _surface := 1
    _surface_size_x := 800
    _surface_size_y := 600
    _surface_capabilities := sampleDevice.surface_capabilities
    _surface_format := ⟨VK_FORMAT_B8G8R8A8_UNORM, VK_COLORSPACE_SRGB_NONLINEAR_KHR⟩ }

/-- A device whose surface locks the number of swapchain images to two. -/
def lockedDevice : Device :=
  { sampleDevice with
    surface_capabilities :=
      { minImageCount := 2, maxImageCount := 2, currentExtent := ⟨800, 600⟩ } }

/-- An object whose surface reports the largest 32-bit value as its minimum
image count and no maximum. -/
def overflowWindow : Window :=
  { sampleInit with
    _surface_capabilities :=
      { minImageCount := 4294967295, maxImageCount := 0, currentExtent := ⟨800, 600⟩ }
    _surface_format := ⟨VK_FORMAT_B8G8R8A8_UNORM, VK_COLORSPACE_SRGB_NONLINEAR_KHR⟩ }

/-- The object as `_InitSurface` leaves it on `lockedDevice`. -/
def lockedWindow : Window :=
  { sampleInit with
    _surface_capabilities := lockedDevice.surface_capabilities
    _surface_format := ⟨VK_FORMAT_B8G8R8A8_UNORM, VK_COLORSPACE_SRGB_NONLINEAR_KHR⟩ }

/-- The surface size `_InitSurface` settles on (lines 70 to 73). -/
def surfaceSize (d : Device) (w : Window) : Nat × Nat :=
  if d.surface_capabilities.currentExtent.width < UINT32_MAX then
    (d.surface_capabilities.currentExtent.width, d.surface_capabilities.currentExtent.height)
  else (w._surface_size_x, w._surface_size_y)

/-- The surface format `_InitSurface` settles on (lines 84 to 89). -/
def surfaceFormat (formats_0 : VkSurfaceFormatKHR) : VkSurfaceFormatKHR :=
  if formats_0.format = VK_FORMAT_UNDEFINED then
    ⟨VK_FORMAT_B8G8R8A8_UNORM, VK_COLORSPACE_SRGB_NONLINEAR_KHR⟩
  else formats_0

/-- A device that reports the undefined marker first and a second format after it. -/
def undefinedFirstDevice : Device :=
  { sampleDevice with surface_formats := [⟨VK_FORMAT_UNDEFINED, 5⟩, ⟨37, 0⟩] }

/-- The test of line 201 on what the device reports for a format. -/
def supportsDepthStencil (d : Device) (f : VkFormat) : Prop :=
  (d.format_properties f).optimalTilingFeatures
    &&& VK_FORMAT_FEATURE_DEPTH_STENCIL_ATTACHMENT_BIT ≠ 0

instance (d : Device) (f : VkFormat) : Decidable (supportsDepthStencil d f) := by
  unfold supportsDepthStencil
  infer_instance

/-- The format member after the loop of lines 198 to 205 over `l`. -/
def formatAfterLoop (d : Device) (l : List VkFormat) (w : Window) : VkFormat :=
  match l.find? (fun f => decide (supportsDepthStencil d f)) with
  | some f => f
  | none => w._depth_stencil_format

/-- The object after the format has been settled (lines 210 to 266), given the
object as the loop left it. -/
def afterDepthStencil (d : Device) (w : Window) : Window :=
  { w with
    _stencil_available :=
      if w._depth_stencil_format = VK_FORMAT_D32_SFLOAT_S8_UINT
          ∨ w._depth_stencil_format = VK_FORMAT_D24_UNORM_S8_UINT
          ∨ w._depth_stencil_format = VK_FORMAT_D16_UNORM_S8_UINT
          ∨ w._depth_stencil_format = VK_FORMAT_S8_UINT then true
      else w._stencil_available
    _depth_stencil_image := d.handle Site.createDepthStencilImage
    _depth_stencil_image_memory := d.handle Site.allocateDepthStencilMemory
    _depth_stencil_image_view := d.handle Site.createDepthStencilImageView }

/-- The calls of lines 236 to 266, given the object they leave behind. -/
def depthStencilCalls (d : Device) (w : Window) : List Call :=
  [ Call.vkCreateImage (Window.depth_stencil_image_create_info w),
    Call.vkGetImageMemoryRequirements w._depth_stencil_image,
    Call.vkAllocateMemory
      { sType := VK_STRUCTURE_TYPE_MEMORY_ALLOCATE_INFO
        allocationSize := d.image_memory_requirements.size
        memoryTypeIndex :=
          d.FindMemoryTypeIndex d.image_memory_requirements VK_MEMORY_PROPERTY_DEVICE_LOCAL_BIT },
    Call.vkBindImageMemory w._depth_stencil_image w._depth_stencil_image_memory 0,
    Call.vkCreateImageView ViewKind.depthStencil (Window.depth_stencil_image_view_create_info w) ]

/-- Every attachment index a subpass refers to. -/
def referencedAttachments (sp : VkSubpassDescription) : List Nat :=
  ((sp.pInputAttachments.getD []).map fun r => r.attachment)
    ++ ((sp.pColorAttachments.getD []).map fun r => r.attachment)
    ++ ((sp.pResolveAttachments.getD []).map fun r => r.attachment)
    ++ (sp.pDepthStencilAttachment.toList.map fun r => r.attachment)
    ++ sp.pPreserveAttachments.getD []

/-- The object the constructor builds on the sample device when asked for a
window of 640 by 480. -/
def sampleWindow : Window :=
  { _surface_size_x := 800
    _surface_size_y := 600
    _window_name := "sample"
    _window_should_run := true
    _surface := 1
    _surface_capabilities :=
      { minImageCount := 2, maxImageCount := 8, currentExtent := ⟨800, 600⟩ }
    _surface_format := ⟨VK_FORMAT_B8G8R8A8_UNORM, VK_COLORSPACE_SRGB_NONLINEAR_KHR⟩
    _swapchain := 2
    _swapchain_image_count := 3
    _swapchain_images := [11, 12, 13]
    _swapchain_image_views := [100, 101, 102]
    _depth_stencil_image := 3
    _depth_stencil_image_memory := 4
    _depth_stencil_image_view := 5
    _depth_stencil_format := VK_FORMAT_D24_UNORM_S8_UINT
    _stencil_available := true
    _render_pass := 6 }

/-- The extent a call asks for, when it creates the swapchain or the
depth/stencil image, is `sx` by `sy`. -/
def extentIs (sx sy : Nat) (c : Call) : Prop :=
  (∀ info, c = Call.vkCreateSwapchainKHR info →
      info.imageExtent.width = sx ∧ info.imageExtent.height = sy)
    ∧ (∀ info, c = Call.vkCreateImage info →
      info.extent.width = sx ∧ info.extent.height = sy)

/-- The surface size held by the object is `sx` by `sy`. -/
def sizeIs (sx sy : Nat) (w : Window) : Prop :=
  w._surface_size_x = sx ∧ w._surface_size_y = sy

/-- Throughout a run of the constructor the surface size is `sx` by `sy`: every
swapchain and every depth/stencil image it creates is asked to have this
extent, and the object it builds holds this size. -/
def sizeThroughout (r : Run Window) (sx sy : Nat) : Prop :=
  (∀ info, Call.vkCreateSwapchainKHR info ∈ r.calls →
      info.imageExtent.width = sx ∧ info.imageExtent.height = sy)
    ∧ (∀ info, Call.vkCreateImage info ∈ r.calls →
      info.extent.width = sx ∧ info.extent.height = sy)
    ∧ (∀ w, r.result = .ok w → w._surface_size_x = sx ∧ w._surface_size_y = sy)

/-- The sample device, except that the device call made at `site` reports
`VK_ERROR_OUT_OF_DEVICE_MEMORY`. -/
def failingAt (site : Site) : Device :=
  { sampleDevice with
    result := fun s => if s = site then VK_ERROR_OUT_OF_DEVICE_MEMORY else VK_SUCCESS }

/-- Every call of the run satisfies `Q`, and the value of a run that reaches
its end satisfies `P`. -/
def Run.Sat {α : Type} (x : Run α) (Q : Call → Prop) (P : α → Prop) : Prop :=
  (∀ c ∈ x.calls, Q c) ∧ ∀ a, x.result = .ok a → P a

/-! ## Lemmas on runs -/

namespace Run

@[simp] theorem pure_eq {α : Type} (a : α) : (pure a : Run α) = ret a := rfl

@[simp] theorem bind_eq {α β : Type} (x : Run α) (f : α → Run β) :
    (x >>= f) = andThen x f := rfl

@[simp] theorem ret_calls {α : Type} (a : α) : (ret a).calls = [] := rfl

@[simp] theorem ret_result {α : Type} (a : α) : (ret a).result = .ok a := rfl

@[simp] theorem exit_calls {α : Type} (e : Fatal) : (exit e : Run α).calls = [] := rfl

@[simp] theorem exit_result {α : Type} (e : Fatal) : (exit e : Run α).result = .error e := rfl

@[simp] theorem call_calls {α : Type} (c : Call) (a : α) : (call c a).calls = [c] := rfl

@[simp] theorem call_result {α : Type} (c : Call) (a : α) : (call c a).result = .ok a := rfl

@[simp] theorem call_andThen {α β : Type} (c : Call) (a : α) (f : α → Run β) :
    andThen (call c a) f = ⟨c :: (f a).calls, (f a).result⟩ := rfl

@[simp] theorem ret_andThen {α β : Type} (a : α) (f : α → Run β) :
    andThen (ret a) f = f a := by
  simp [andThen, ret]

@[simp] theorem exit_andThen {α β : Type} (e : Fatal) (f : α → Run β) :
    andThen (exit e) f = exit e := rfl

end Run

theorem ErrorCheck_andThen {β : Type} (r : VkResult) (f : Unit → Run β) :
    Run.andThen (ErrorCheck r) f
      = if r = VK_SUCCESS then f () else Run.exit (Fatal.vulkanRuntimeError r) := by
  unfold ErrorCheck
  split <;> simp

/-! ## The swapchain stage -/

theorem swapchainInfos_InitSwapchain (d : Device) (w : Window) :
    swapchainInfos (Window._InitSwapchain d w)
      = if d.result Site.presentModeCount = VK_SUCCESS
            ∧ d.result Site.presentModes = VK_SUCCESS then
          [Window.swapchain_create_info (atSwapchainCreation w)
            (Window._InitSwapchain_present_mode d.present_modes VK_PRESENT_MODE_FIFO_KHR)]
        else [] := by
  simp only [swapchainInfos, Window._InitSwapchain, vkGetPhysicalDeviceSurfacePresentModesKHR,
    vkCreateSwapchainKHR, vkGetSwapchainImagesKHR, ErrorCheck_andThen, Run.bind_eq,
    Run.pure_eq, Run.call_andThen, atSwapchainCreation]
  by_cases h1 : d.result Site.presentModeCount = VK_SUCCESS <;>
    by_cases h2 : d.result Site.presentModes = VK_SUCCESS <;>
    by_cases h3 : d.result Site.createSwapchain = VK_SUCCESS <;>
    by_cases h4 : d.result Site.swapchainImageCount = VK_SUCCESS <;>
    simp [h1, h2, h3, h4]

theorem image_count_le_max (w : Window) (hM : w._surface_capabilities.maxImageCount > 0) :
    Window._InitSwapchain_image_count w ≤ w._surface_capabilities.maxImageCount := by
  unfold Window._InitSwapchain_image_count
  simp only [hM, if_true]
  split_ifs <;> omega

theorem image_count_ge_min_succ (w : Window)
    (hm : w._surface_capabilities.minImageCount < UINT32_MAX)
    (hM : w._surface_capabilities.maxImageCount = 0
      ∨ w._surface_capabilities.minImageCount + 1 ≤ w._surface_capabilities.maxImageCount) :
    w._surface_capabilities.minImageCount + 1 ≤ Window._InitSwapchain_image_count w := by
  have h32 : u32 (w._surface_capabilities.minImageCount + 1)
      = w._surface_capabilities.minImageCount + 1 := by
    unfold u32
    apply Nat.mod_eq_of_lt
    simp only [UINT32_MAX] at hm
    omega
  unfold Window._InitSwapchain_image_count
  simp only [h32]
  split_ifs <;> omega

theorem sample_swapchainInfos :
    swapchainInfos (Window._InitSwapchain sampleDevice sampleSurfaceWindow)
      = [Window.swapchain_create_info (atSwapchainCreation sampleSurfaceWindow)
          VK_PRESENT_MODE_MAILBOX_KHR] := by
  rw [swapchainInfos_InitSwapchain]
  rfl

theorem image_count_eq_of_in_range (w : Window)
    (hm : w._surface_capabilities.minImageCount < UINT32_MAX)
    (hlo : w._surface_capabilities.minImageCount + 1 ≤ w._swapchain_image_count)
    (hhi : w._surface_capabilities.maxImageCount = 0
      ∨ w._swapchain_image_count ≤ w._surface_capabilities.maxImageCount) :
    Window._InitSwapchain_image_count w = w._swapchain_image_count := by
  have h32 : u32 (w._surface_capabilities.minImageCount + 1)
      = w._surface_capabilities.minImageCount + 1 := by
    unfold u32
    apply Nat.mod_eq_of_lt
    simp only [UINT32_MAX] at hm
    omega
  unfold Window._InitSwapchain_image_count
  simp only [h32]
  split_ifs <;> omega

theorem present_mode_loop (l : List VkPresentModeKHR) (present_mode : VkPresentModeKHR) :
    Window._InitSwapchain_present_mode l present_mode
      = if VK_PRESENT_MODE_MAILBOX_KHR ∈ l then VK_PRESENT_MODE_MAILBOX_KHR
        else present_mode := by
  induction l generalizing present_mode with
  | nil => simp [Window._InitSwapchain_present_mode]
  | cons m rest ih =>
    rw [Window._InitSwapchain_present_mode, ih]
    by_cases hm : m = VK_PRESENT_MODE_MAILBOX_KHR
    · simp [hm]
    · have hm2 : ¬ VK_PRESENT_MODE_MAILBOX_KHR = m := fun h => hm h.symm
      simp [hm, hm2]

/-- C1, as stated, fails: on a surface that reports `minImageCount = 2` and
`maxImageCount = 2`, with two images asked for at the start, the one swapchain
that is created is asked to hold 2 images, which is less than
`minImageCount + 1 = 3`.  It also fails where `minImageCount + 1` does not fit
32 bits: with `minImageCount = 4294967295`, no maximum and two images asked
for, the swapchain is asked to hold 2 images. -/
theorem image_count_below_min_succ_when_locked :
    (swapchainInfos (Window._InitSwapchain lockedDevice lockedWindow)).map
        (fun info => info.minImageCount) = [2]
      ∧ lockedWindow._surface_capabilities.minImageCount = 2
      ∧ lockedWindow._surface_capabilities.maxImageCount = 2
      ∧ lockedWindow._swapchain_image_count = 2
      ∧ ¬ (∀ info ∈ swapchainInfos (Window._InitSwapchain lockedDevice lockedWindow),
            info.minImageCount ≥ lockedWindow._surface_capabilities.minImageCount + 1)
      ∧ (swapchainInfos (Window._InitSwapchain sampleDevice overflowWindow)).map
          (fun info => info.minImageCount) = [2]
      ∧ ¬ (∀ info ∈ swapchainInfos (Window._InitSwapchain sampleDevice overflowWindow),
            info.minImageCount ≥ overflowWindow._surface_capabilities.minImageCount + 1) := by
  have h : swapchainInfos (Window._InitSwapchain lockedDevice lockedWindow)
      = [Window.swapchain_create_info (atSwapchainCreation lockedWindow)
          VK_PRESENT_MODE_MAILBOX_KHR] := by
    rw [swapchainInfos_InitSwapchain]
    rfl
  have h2 : swapchainInfos (Window._InitSwapchain sampleDevice overflowWindow)
      = [Window.swapchain_create_info (atSwapchainCreation overflowWindow)
          VK_PRESENT_MODE_MAILBOX_KHR] := by
    rw [swapchainInfos_InitSwapchain]
    rfl
  rw [h, h2]
  refine ⟨rfl, rfl, rfl, rfl, ?_, rfl, ?_⟩
  · intro hall
    have := hall _ (List.mem_singleton.mpr rfl)
    revert this
    decide
  · intro hall
    have := hall _ (List.mem_singleton.mpr rfl)
    revert this
    decide

/-- C1, amended: whatever the device reports and whatever count is asked for at
the start, every description handed to swapchain creation by `_InitSwapchain`
asks for at most `maxImageCount` images when `maxImageCount > 0`, and for at
least `minImageCount + 1` images when that sum fits 32 bits and the maximum
leaves room for it (`maxImageCount = 0` or `minImageCount + 1 ≤ maxImageCount`). -/
theorem image_count_bounds (d : Device) (w : Window) (info : VkSwapchainCreateInfoKHR)
    (hinfo : info ∈ swapchainInfos (Window._InitSwapchain d w)) :
    (w._surface_capabilities.maxImageCount > 0 →
        info.minImageCount ≤ w._surface_capabilities.maxImageCount)
      ∧ (w._surface_capabilities.minImageCount < UINT32_MAX →
          (w._surface_capabilities.maxImageCount = 0
            ∨ w._surface_capabilities.minImageCount + 1
                ≤ w._surface_capabilities.maxImageCount) →
          info.minImageCount ≥ w._surface_capabilities.minImageCount + 1) := by
  rw [swapchainInfos_InitSwapchain] at hinfo
  split at hinfo
  · rw [List.mem_singleton] at hinfo
    subst hinfo
    exact ⟨image_count_le_max w, image_count_ge_min_succ w⟩
  · simp at hinfo

/-- On the sample device, where the surface reports 2 to 8 images and two are
asked for, the created swapchain is asked to hold 3. -/
theorem image_count_bounds_witness :
    Window.swapchain_create_info (atSwapchainCreation sampleSurfaceWindow)
        VK_PRESENT_MODE_MAILBOX_KHR
      ∈ swapchainInfos (Window._InitSwapchain sampleDevice sampleSurfaceWindow)
    ∧ (Window.swapchain_create_info (atSwapchainCreation sampleSurfaceWindow)
        VK_PRESENT_MODE_MAILBOX_KHR).minImageCount ≤ 8
    ∧ 2 + 1 ≤ (Window.swapchain_create_info (atSwapchainCreation sampleSurfaceWindow)
        VK_PRESENT_MODE_MAILBOX_KHR).minImageCount :=
  have hmem : Window.swapchain_create_info (atSwapchainCreation sampleSurfaceWindow)
        VK_PRESENT_MODE_MAILBOX_KHR
      ∈ swapchainInfos (Window._InitSwapchain sampleDevice sampleSurfaceWindow) := by
    rw [sample_swapchainInfos]
    exact List.mem_singleton.mpr rfl
  ⟨hmem, (image_count_bounds sampleDevice _ _ hmem).1 (by decide),
    (image_count_bounds sampleDevice _ _ hmem).2 (by decide) (by decide)⟩

/-- C10: with the sum `minImageCount + 1` taken in 32 bits, for a surface whose
limits are well formed (`maxImageCount = 0` or `minImageCount ≤ maxImageCount`)
and whose `minImageCount` is below `2^32 - 1`, every description handed to
swapchain creation by `_InitSwapchain` asks for at least `minImageCount`
images and, when `maxImageCount` is not zero, for at most `maxImageCount`;
when moreover `minImageCount = maxImageCount ≠ 0` it asks for exactly
`maxImageCount`; and a starting count already within
`[minImageCount + 1, maxImageCount]` (or at least `minImageCount + 1` when
`maxImageCount = 0`) is passed on unchanged. -/
theorem image_count_32bit (d : Device) (w : Window) (info : VkSwapchainCreateInfoKHR)
    (hinfo : info ∈ swapchainInfos (Window._InitSwapchain d w))
    (hwf : w._surface_capabilities.maxImageCount = 0
      ∨ w._surface_capabilities.minImageCount ≤ w._surface_capabilities.maxImageCount)
    (hm : w._surface_capabilities.minImageCount < 2 ^ 32 - 1) :
    w._surface_capabilities.minImageCount ≤ info.minImageCount
      ∧ (w._surface_capabilities.maxImageCount ≠ 0 →
          info.minImageCount ≤ w._surface_capabilities.maxImageCount)
      ∧ (w._surface_capabilities.maxImageCount ≠ 0 →
          w._surface_capabilities.minImageCount = w._surface_capabilities.maxImageCount →
          info.minImageCount = w._surface_capabilities.maxImageCount)
      ∧ (w._surface_capabilities.minImageCount + 1 ≤ w._swapchain_image_count →
          (w._surface_capabilities.maxImageCount = 0
            ∨ w._swapchain_image_count ≤ w._surface_capabilities.maxImageCount) →
          info.minImageCount = w._swapchain_image_count) := by
  rw [swapchainInfos_InitSwapchain] at hinfo
  split at hinfo
  · rw [List.mem_singleton] at hinfo
    subst hinfo
    have hm2 : w._surface_capabilities.minImageCount < UINT32_MAX := by
      simp only [UINT32_MAX]
      omega
    have h32 : u32 (w._surface_capabilities.minImageCount + 1)
        = w._surface_capabilities.minImageCount + 1 := by
      unfold u32
      apply Nat.mod_eq_of_lt
      omega
    have hval : (Window.swapchain_create_info (atSwapchainCreation w)
        (Window._InitSwapchain_present_mode d.present_modes VK_PRESENT_MODE_FIFO_KHR)).minImageCount
        = Window._InitSwapchain_image_count w := rfl
    rw [hval]
    refine ⟨?_, ?_, ?_, ?_⟩
    · unfold Window._InitSwapchain_image_count
      simp only [h32]
      split_ifs <;> omega
    · intro hM
      exact image_count_le_max w (Nat.pos_of_ne_zero hM)
    · intro hM heq
      unfold Window._InitSwapchain_image_count
      simp only [h32]
      split_ifs <;> omega
    · intro hlo hhi
      exact image_count_eq_of_in_range w hm2 hlo hhi
  · simp at hinfo

/-- On the locked device (2 to 2 images) the swapchain is asked to hold
exactly 2 images. -/
theorem image_count_32bit_witness :
    Window.swapchain_create_info (atSwapchainCreation lockedWindow) VK_PRESENT_MODE_MAILBOX_KHR
      ∈ swapchainInfos (Window._InitSwapchain lockedDevice lockedWindow)
    ∧ 2 ≤ (Window.swapchain_create_info (atSwapchainCreation lockedWindow)
        VK_PRESENT_MODE_MAILBOX_KHR).minImageCount
    ∧ (Window.swapchain_create_info (atSwapchainCreation lockedWindow)
        VK_PRESENT_MODE_MAILBOX_KHR).minImageCount = 2 :=
  have hmem : Window.swapchain_create_info (atSwapchainCreation lockedWindow)
        VK_PRESENT_MODE_MAILBOX_KHR
      ∈ swapchainInfos (Window._InitSwapchain lockedDevice lockedWindow) := by
    rw [swapchainInfos_InitSwapchain]
    exact List.mem_singleton.mpr rfl
  have h := image_count_32bit lockedDevice lockedWindow _ hmem (Or.inr (by decide)) (by decide)
  ⟨hmem, h.1, h.2.2.1 (by decide) rfl⟩

/-- C5: every description handed to swapchain creation by `_InitSwapchain`
carries `VK_PRESENT_MODE_MAILBOX_KHR` exactly when mailbox occurs in the list
of presentation modes the device reports, wherever in the list it stands, and
`VK_PRESENT_MODE_FIFO_KHR` when it does not occur (the empty list included). -/
theorem present_mode_mailbox_iff (d : Device) (w : Window) (info : VkSwapchainCreateInfoKHR)
    (hinfo : info ∈ swapchainInfos (Window._InitSwapchain d w)) :
    (info.presentMode = VK_PRESENT_MODE_MAILBOX_KHR
        ↔ VK_PRESENT_MODE_MAILBOX_KHR ∈ d.present_modes)
      ∧ (VK_PRESENT_MODE_MAILBOX_KHR ∉ d.present_modes →
          info.presentMode = VK_PRESENT_MODE_FIFO_KHR) := by
  rw [swapchainInfos_InitSwapchain] at hinfo
  split at hinfo
  · rw [List.mem_singleton] at hinfo
    subst hinfo
    have hval : (Window.swapchain_create_info (atSwapchainCreation w)
        (Window._InitSwapchain_present_mode d.present_modes VK_PRESENT_MODE_FIFO_KHR)).presentMode
        = Window._InitSwapchain_present_mode d.present_modes VK_PRESENT_MODE_FIFO_KHR := rfl
    rw [hval, present_mode_loop]
    by_cases hmem : VK_PRESENT_MODE_MAILBOX_KHR ∈ d.present_modes
    · simp [hmem]
    · simp [hmem]
  · simp at hinfo

/-- On the sample device, which lists FIFO and then mailbox, the swapchain is
created with mailbox. -/
theorem present_mode_mailbox_iff_witness :
    Window.swapchain_create_info (atSwapchainCreation sampleSurfaceWindow)
        VK_PRESENT_MODE_MAILBOX_KHR
      ∈ swapchainInfos (Window._InitSwapchain sampleDevice sampleSurfaceWindow)
    ∧ (Window.swapchain_create_info (atSwapchainCreation sampleSurfaceWindow)
        VK_PRESENT_MODE_MAILBOX_KHR).presentMode = VK_PRESENT_MODE_MAILBOX_KHR :=
  have hmem : Window.swapchain_create_info (atSwapchainCreation sampleSurfaceWindow)
        VK_PRESENT_MODE_MAILBOX_KHR
      ∈ swapchainInfos (Window._InitSwapchain sampleDevice sampleSurfaceWindow) := by
    rw [sample_swapchainInfos]
    exact List.mem_singleton.mpr rfl
  ⟨hmem, (present_mode_mailbox_iff sampleDevice sampleSurfaceWindow _ hmem).1.mpr (by decide)⟩


/-! ## The surface stage -/

theorem InitSurface_result (d : Device) (w : Window) :
    (Window._InitSurface d w).result
      = if d.WSI_supported = false then .error Fatal.wsiNotSupported
        else if d.surface_formats.length = 0 then .error Fatal.surfaceFormatsMissing
        else .ok { w with
          _surface := d.handle Site.osSurface
          _surface_capabilities := d.surface_capabilities
          _surface_size_x := (surfaceSize d w).1
          _surface_size_y := (surfaceSize d w).2
          _surface_format :=
            surfaceFormat (d.surface_formats.getD 0 ⟨VK_FORMAT_UNDEFINED, 0⟩) } := by
  simp only [Window._InitSurface, Window._InitOSSurface, vkGetPhysicalDeviceSurfaceSupportKHR,
    vkGetPhysicalDeviceSurfaceCapabilitiesKHR, vkGetPhysicalDeviceSurfaceFormatsKHR,
    Run.bind_eq, Run.pure_eq, Run.call_andThen, surfaceSize, surfaceFormat]
  cases hW : d.WSI_supported <;>
    by_cases hlen : d.surface_formats.length = 0 <;>
    by_cases hext : d.surface_capabilities.currentExtent.width < UINT32_MAX <;>
    simp [hlen, hext] <;>
    split_ifs <;> simp

/-- C2, as stated, fails: when the device reports the two formats
`(VK_FORMAT_UNDEFINED, 5)` and `(37, 0)`, the list is not the one-element list
of the undefined marker, yet the selected surface format is
`(VK_FORMAT_B8G8R8A8_UNORM, VK_COLORSPACE_SRGB_NONLINEAR_KHR)` and not the
first entry of the list. -/
theorem surface_format_differs_from_first_entry :
    undefinedFirstDevice.surface_formats = [⟨VK_FORMAT_UNDEFINED, 5⟩, ⟨37, 0⟩]
      ∧ (Window._InitSurface undefinedFirstDevice sampleInit).result.toOption.map
          (fun w => w._surface_format)
        = some ⟨VK_FORMAT_B8G8R8A8_UNORM, VK_COLORSPACE_SRGB_NONLINEAR_KHR⟩
      ∧ (Window._InitSurface undefinedFirstDevice sampleInit).result.toOption.map
          (fun w => w._surface_format)
        ≠ undefinedFirstDevice.surface_formats.head? := by
  refine ⟨rfl, ?_, ?_⟩
  · rw [InitSurface_result]
    rfl
  · rw [InitSurface_result]
    decide

/-- C2, amended: for every non-empty list of surface formats the device
reports, `_InitSurface` runs to its end whenever the surface can be presented
to, and when it runs to its end the selected surface format is exactly
`(VK_FORMAT_B8G8R8A8_UNORM, VK_COLORSPACE_SRGB_NONLINEAR_KHR)` if the format of
the first reported entry is `VK_FORMAT_UNDEFINED` (whatever its colour space
and whether or not more entries follow), and equals the first reported entry
in every other case. -/
theorem surface_format_selection (d : Device) (w : Window) (formats_0 : VkSurfaceFormatKHR)
    (rest : List VkSurfaceFormatKHR) (hformats : d.surface_formats = formats_0 :: rest) :
    (d.WSI_supported = true → ∃ w2, (Window._InitSurface d w).result = .ok w2)
      ∧ (∀ w2, (Window._InitSurface d w).result = .ok w2 →
          (formats_0.format = VK_FORMAT_UNDEFINED →
              w2._surface_format
                = ⟨VK_FORMAT_B8G8R8A8_UNORM, VK_COLORSPACE_SRGB_NONLINEAR_KHR⟩)
            ∧ (formats_0.format ≠ VK_FORMAT_UNDEFINED → w2._surface_format = formats_0)) := by
  rw [InitSurface_result]
  simp only [hformats, List.length_cons, Nat.succ_ne_zero, if_false]
  constructor
  · intro hW
    simp only [hW, Bool.true_eq_false, if_false]
    exact ⟨_, rfl⟩
  · intro w2 hw2
    split_ifs at hw2
    cases hw2
    constructor
    · intro h
      simp [surfaceFormat, h]
    · intro h
      simp [surfaceFormat, h]

/-- On the device that reports `(VK_FORMAT_UNDEFINED, 5)` and then `(37, 0)`
the stage runs to its end and the selected surface format is the default one. -/
theorem surface_format_selection_witness :
    undefinedFirstDevice.WSI_supported = true
      ∧ undefinedFirstDevice.surface_formats = [⟨VK_FORMAT_UNDEFINED, 5⟩, ⟨37, 0⟩]
      ∧ (Window._InitSurface undefinedFirstDevice sampleInit).result.toOption.map
          (fun w => w._surface_format)
        = some ⟨VK_FORMAT_B8G8R8A8_UNORM, VK_COLORSPACE_SRGB_NONLINEAR_KHR⟩ :=
  ⟨rfl, rfl,
    match (surface_format_selection undefinedFirstDevice sampleInit ⟨VK_FORMAT_UNDEFINED, 5⟩
        [⟨37, 0⟩] rfl).1 rfl with
    | ⟨w2, hok⟩ => by
      rw [hok]
      exact congrArg some
        (((surface_format_selection undefinedFirstDevice sampleInit ⟨VK_FORMAT_UNDEFINED, 5⟩
          [⟨37, 0⟩] rfl).2 w2 hok).1 rfl)⟩

/-! ## Sequencing -/

namespace Run

theorem andThen_calls {α β : Type} (x : Run α) (f : α → Run β) :
    (andThen x f).calls
      = x.calls ++ (match x.result with
          | .ok a => (f a).calls
          | .error _ => []) := by
  unfold andThen
  cases x.result <;> simp

theorem andThen_result_ok {α β : Type} (x : Run α) (f : α → Run β) (b : β) :
    (andThen x f).result = .ok b ↔ ∃ a, x.result = .ok a ∧ (f a).result = .ok b := by
  unfold andThen
  cases x.result <;> simp

theorem andThen_of_ok {α β : Type} (x : Run α) (f : α → Run β) (a : α)
    (h : x.result = .ok a) :
    (andThen x f).calls = x.calls ++ (f a).calls ∧ (andThen x f).result = (f a).result := by
  unfold andThen
  simp [h]

theorem mem_andThen_calls {α β : Type} (x : Run α) (f : α → Run β) (c : Call)
    (h : c ∈ (andThen x f).calls) :
    c ∈ x.calls ∨ ∃ a, x.result = .ok a ∧ c ∈ (f a).calls := by
  rw [andThen_calls] at h
  rcases List.mem_append.mp h with h | h
  · exact Or.inl h
  · cases hx : x.result with
    | error e => simp [hx] at h
    | ok a =>
      simp only [hx] at h
      exact Or.inr ⟨a, rfl, h⟩

end Run


/-! ## The depth/stencil stage -/

theorem depth_loop_result (d : Device) (l : List VkFormat) (w : Window) :
    (Window._InitDepthStencilImage_loop d l w).result
      = .ok { w with _depth_stencil_format := formatAfterLoop d l w } := by
  induction l with
  | nil => rfl
  | cons f rest ih =>
    simp only [Window._InitDepthStencilImage_loop, vkGetPhysicalDeviceFormatProperties,
      Run.bind_eq, Run.pure_eq, Run.call_andThen]
    by_cases hf : supportsDepthStencil d f
    · have hf2 := hf
      unfold supportsDepthStencil at hf2
      simp [hf2, formatAfterLoop, List.find?, hf]
    · have hf2 := hf
      unfold supportsDepthStencil at hf2
      simp only [hf2, if_false, ih]
      simp [formatAfterLoop, List.find?, hf]

theorem depth_loop_calls (d : Device) (l : List VkFormat) (w : Window) (c : Call)
    (hc : c ∈ (Window._InitDepthStencilImage_loop d l w).calls) :
    ∃ f, c = Call.vkGetPhysicalDeviceFormatProperties f := by
  induction l with
  | nil => simp [Window._InitDepthStencilImage_loop] at hc
  | cons f rest ih =>
    simp only [Window._InitDepthStencilImage_loop, vkGetPhysicalDeviceFormatProperties,
      Run.bind_eq, Run.pure_eq, Run.call_andThen, List.mem_cons] at hc
    rcases hc with hc | hc
    · exact ⟨f, hc⟩
    · split at hc
      · simp at hc
      · exact ih hc

theorem InitDepthStencilImage_eq (d : Device) (w : Window) :
    Window._InitDepthStencilImage d w
      = if formatAfterLoop d Window.try_formats w = VK_FORMAT_UNDEFINED then
          ⟨(Window._InitDepthStencilImage_loop d Window.try_formats w).calls,
            .error Fatal.depthStencilFormatNotSelected⟩
        else
          ⟨(Window._InitDepthStencilImage_loop d Window.try_formats w).calls
              ++ depthStencilCalls d (afterDepthStencil d
                  { w with _depth_stencil_format := formatAfterLoop d Window.try_formats w }),
            .ok (afterDepthStencil d
              { w with _depth_stencil_format := formatAfterLoop d Window.try_formats w })⟩ := by
  have hres := depth_loop_result d Window.try_formats w
  unfold Window._InitDepthStencilImage
  simp only [Run.bind_eq, Run.pure_eq]
  rw [Run.andThen]
  simp only [hres]
  by_cases h1 : formatAfterLoop d Window.try_formats w = VK_FORMAT_UNDEFINED
  · simp [h1]
  · by_cases h2 : formatAfterLoop d Window.try_formats w = VK_FORMAT_D32_SFLOAT_S8_UINT
        ∨ formatAfterLoop d Window.try_formats w = VK_FORMAT_D24_UNORM_S8_UINT
        ∨ formatAfterLoop d Window.try_formats w = VK_FORMAT_D16_UNORM_S8_UINT
        ∨ formatAfterLoop d Window.try_formats w = VK_FORMAT_S8_UINT
    · simp [h1, h2, vkCreateImage, vkGetImageMemoryRequirements, vkAllocateMemory,
        vkBindImageMemory, vkCreateImageView, depthStencilCalls, afterDepthStencil,
        Window.depth_stencil_image_create_info, Window.depth_stencil_image_view_create_info]
    · simp [h1, h2, vkCreateImage, vkGetImageMemoryRequirements, vkAllocateMemory,
        vkBindImageMemory, vkCreateImageView, depthStencilCalls, afterDepthStencil,
        Window.depth_stencil_image_create_info, Window.depth_stencil_image_view_create_info]


theorem InitDepthStencilImage_result (d : Device) (w : Window) :
    (Window._InitDepthStencilImage d w).result
      = if formatAfterLoop d Window.try_formats w = VK_FORMAT_UNDEFINED then
          .error Fatal.depthStencilFormatNotSelected
        else
          .ok (afterDepthStencil d
            { w with _depth_stencil_format := formatAfterLoop d Window.try_formats w }) := by
  rw [InitDepthStencilImage_eq]
  split_ifs <;> rfl

theorem try_formats_ne_undefined (f : VkFormat) (hf : f ∈ Window.try_formats) :
    f ≠ VK_FORMAT_UNDEFINED := by
  intro h
  subst h
  revert hf
  decide

theorem formatAfterLoop_undefined_iff (d : Device) (w : Window)
    (hstart : w._depth_stencil_format = VK_FORMAT_UNDEFINED) :
    formatAfterLoop d Window.try_formats w = VK_FORMAT_UNDEFINED
      ↔ ∀ f ∈ Window.try_formats, ¬ supportsDepthStencil d f := by
  unfold formatAfterLoop
  cases hfind : Window.try_formats.find? (fun f => decide (supportsDepthStencil d f)) with
  | none =>
    simp only [hstart, true_iff]
    intro f hf
    have := List.find?_eq_none.mp hfind f hf
    simpa using this
  | some f =>
    simp only
    constructor
    · intro h
      exact absurd h (try_formats_ne_undefined f (List.mem_of_find?_eq_some hfind))
    · intro h
      have h1 := List.find?_some hfind
      have h2 := h f (List.mem_of_find?_eq_some hfind)
      simp only [decide_eq_true_eq] at h1
      exact absurd h1 h2

theorem formatAfterLoop_first (d : Device) (w : Window)
    (hne : formatAfterLoop d Window.try_formats w ≠ w._depth_stencil_format) :
    ∃ pre post, Window.try_formats = pre ++ formatAfterLoop d Window.try_formats w :: post
      ∧ supportsDepthStencil d (formatAfterLoop d Window.try_formats w)
      ∧ ∀ g ∈ pre, ¬ supportsDepthStencil d g := by
  unfold formatAfterLoop at hne ⊢
  cases hfind : Window.try_formats.find? (fun f => decide (supportsDepthStencil d f)) with
  | none => simp [hfind] at hne
  | some f =>
    simp only
    obtain ⟨hp, pre, post, hsplit, hpre⟩ := List.find?_eq_some.mp hfind
    refine ⟨pre, post, hsplit, by simpa using hp, ?_⟩
    intro g hg
    have := hpre g hg
    simpa using this

/-- C4: when `_InitDepthStencilImage` starts with no depth/stencil format
selected (`VK_FORMAT_UNDEFINED`), then whatever the device reports for the
formats: the list tried is D32_SFLOAT_S8_UINT, D24_UNORM_S8_UINT,
D16_UNORM_S8_UINT, D32_SFLOAT, D16_UNORM in this order; the stage ends in the
fatal error "Depth stencil format not selected." exactly when no entry of the
list has the depth-stencil-attachment bit among its optimal-tiling features,
and in no other error; and when it does not, the selected format is an entry of
the list that has the bit while no entry before it has. -/
theorem depth_stencil_format_first_supported (d : Device) (w : Window)
    (hstart : w._depth_stencil_format = VK_FORMAT_UNDEFINED) :
    Window.try_formats
        = [VK_FORMAT_D32_SFLOAT_S8_UINT, VK_FORMAT_D24_UNORM_S8_UINT,
            VK_FORMAT_D16_UNORM_S8_UINT, VK_FORMAT_D32_SFLOAT, VK_FORMAT_D16_UNORM]
      ∧ ((Window._InitDepthStencilImage d w).result
            = .error Fatal.depthStencilFormatNotSelected
          ↔ ∀ f ∈ Window.try_formats, ¬ supportsDepthStencil d f)
      ∧ (∀ e, (Window._InitDepthStencilImage d w).result = .error e →
          e = Fatal.depthStencilFormatNotSelected)
      ∧ (∀ w2, (Window._InitDepthStencilImage d w).result = .ok w2 →
          ∃ pre post, Window.try_formats = pre ++ w2._depth_stencil_format :: post
            ∧ supportsDepthStencil d w2._depth_stencil_format
            ∧ ∀ g ∈ pre, ¬ supportsDepthStencil d g) := by
  have hiff := formatAfterLoop_undefined_iff d w hstart
  rw [InitDepthStencilImage_result]
  refine ⟨rfl, ?_, ?_, ?_⟩
  · by_cases h : formatAfterLoop d Window.try_formats w = VK_FORMAT_UNDEFINED
    · simp only [h, if_true, true_iff]
      exact hiff.mp h
    · simp only [h, if_false]
      constructor
      · intro habs
        cases habs
      · intro hnone
        exact absurd (hiff.mpr hnone) h
  · intro e he
    split at he
    · cases he
      rfl
    · cases he
  · intro w2 hw2
    split at hw2
    · cases hw2
    · rename_i h
      cases hw2
      have hne : formatAfterLoop d Window.try_formats w ≠ w._depth_stencil_format := by
        rw [hstart]
        exact h
      exact formatAfterLoop_first d w hne

/-- On the sample device, which supports the depth formats from
D24_UNORM_S8_UINT on but not D32_SFLOAT_S8_UINT, the stage selects
D24_UNORM_S8_UINT. -/
theorem depth_stencil_format_first_supported_witness :
    sampleInit._depth_stencil_format = VK_FORMAT_UNDEFINED
      ∧ ¬ ((Window._InitDepthStencilImage sampleDevice sampleInit).result
            = .error Fatal.depthStencilFormatNotSelected)
      ∧ (Window._InitDepthStencilImage sampleDevice sampleInit).result.toOption.map
          (fun w => w._depth_stencil_format) = some VK_FORMAT_D24_UNORM_S8_UINT :=
  ⟨rfl,
    fun h => ((depth_stencil_format_first_supported sampleDevice sampleInit rfl).2.1.mp h)
      VK_FORMAT_D24_UNORM_S8_UINT (by decide) (by decide),
    by
      rw [InitDepthStencilImage_result]
      decide⟩


theorem depth_view_of_InitDepthStencilImage (d : Device) (w w2 : Window)
    (hok : (Window._InitDepthStencilImage d w).result = .ok w2) (info : VkImageViewCreateInfo) :
    Call.vkCreateImageView ViewKind.depthStencil info ∈ (Window._InitDepthStencilImage d w).calls
      ↔ info = Window.depth_stencil_image_view_create_info w2 := by
  rw [InitDepthStencilImage_eq] at hok ⊢
  by_cases hfmt : formatAfterLoop d Window.try_formats w = VK_FORMAT_UNDEFINED
  · rw [if_pos hfmt] at hok
    cases hok
  · rw [if_neg hfmt] at hok ⊢
    simp only at hok
    cases hok
    dsimp only
    simp only [List.mem_append]
    constructor
    · intro h
      rcases h with h | h
      · obtain ⟨f, hf⟩ := depth_loop_calls d _ _ _ h
        cases hf
      · simpa [depthStencilCalls] using h
    · intro h
      subst h
      right
      simp [depthStencilCalls]

/-- C7: when `_InitDepthStencilImage` starts with the stencil flag false and
runs to its end, the flag is then true exactly when the selected format is one
of D32_SFLOAT_S8_UINT, D24_UNORM_S8_UINT, D16_UNORM_S8_UINT, S8_UINT, and so
false for D32_SFLOAT and D16_UNORM; a view of the depth/stencil image is
created, and the aspect mask of every such view is depth with stencil when the
flag is true and depth alone when it is false. -/
theorem stencil_flag_and_aspect (d : Device) (w w2 : Window)
    (hflag : w._stencil_available = false)
    (hok : (Window._InitDepthStencilImage d w).result = .ok w2) :
    (w2._stencil_available = true
        ↔ w2._depth_stencil_format = VK_FORMAT_D32_SFLOAT_S8_UINT
          ∨ w2._depth_stencil_format = VK_FORMAT_D24_UNORM_S8_UINT
          ∨ w2._depth_stencil_format = VK_FORMAT_D16_UNORM_S8_UINT
          ∨ w2._depth_stencil_format = VK_FORMAT_S8_UINT)
      ∧ (w2._depth_stencil_format = VK_FORMAT_D32_SFLOAT
          ∨ w2._depth_stencil_format = VK_FORMAT_D16_UNORM → w2._stencil_available = false)
      ∧ (∃ info, Call.vkCreateImageView ViewKind.depthStencil info
          ∈ (Window._InitDepthStencilImage d w).calls)
      ∧ (∀ info, Call.vkCreateImageView ViewKind.depthStencil info
            ∈ (Window._InitDepthStencilImage d w).calls →
          info.subresourceRange.aspectMask
            = if w2._stencil_available = true then
                VK_IMAGE_ASPECT_DEPTH_BIT ||| VK_IMAGE_ASPECT_STENCIL_BIT
              else VK_IMAGE_ASPECT_DEPTH_BIT) := by
  have hview := depth_view_of_InitDepthStencilImage d w w2 hok
  have hflag2 : w2._stencil_available = true
      ↔ w2._depth_stencil_format = VK_FORMAT_D32_SFLOAT_S8_UINT
        ∨ w2._depth_stencil_format = VK_FORMAT_D24_UNORM_S8_UINT
        ∨ w2._depth_stencil_format = VK_FORMAT_D16_UNORM_S8_UINT
        ∨ w2._depth_stencil_format = VK_FORMAT_S8_UINT := by
    rw [InitDepthStencilImage_result] at hok
    split_ifs at hok
    cases hok
    simp [afterDepthStencil, hflag]
  refine ⟨hflag2, ?_, ⟨_, (hview _).mpr rfl⟩, ?_⟩
  · intro hpure
    cases hs : w2._stencil_available with
    | false => rfl
    | true =>
      exfalso
      have h4 := hflag2.mp hs
      rcases hpure with hp | hp <;> rw [hp] at h4 <;> revert h4 <;> decide
  · intro info hinfo
    rw [(hview info).mp hinfo]
    cases hs : w2._stencil_available <;>
      simp [Window.depth_stencil_image_view_create_info, hs]

/-- On the sample device the selected format is D24_UNORM_S8_UINT, the stencil
flag becomes true and the view of the depth/stencil image has aspect mask 6. -/
theorem stencil_flag_and_aspect_witness :
    sampleInit._stencil_available = false
      ∧ (Window._InitDepthStencilImage sampleDevice sampleInit).result
          = .ok (afterDepthStencil sampleDevice
              { sampleInit with _depth_stencil_format := VK_FORMAT_D24_UNORM_S8_UINT })
      ∧ (afterDepthStencil sampleDevice
            { sampleInit with _depth_stencil_format := VK_FORMAT_D24_UNORM_S8_UINT })._stencil_available
          = true
      ∧ (Window.depth_stencil_image_view_create_info (afterDepthStencil sampleDevice
            { sampleInit with _depth_stencil_format := VK_FORMAT_D24_UNORM_S8_UINT })).subresourceRange.aspectMask
          = 6 :=
  have hok : (Window._InitDepthStencilImage sampleDevice sampleInit).result
      = .ok (afterDepthStencil sampleDevice
          { sampleInit with _depth_stencil_format := VK_FORMAT_D24_UNORM_S8_UINT }) := by
    rw [InitDepthStencilImage_result]
    rfl
  ⟨rfl, hok,
    (stencil_flag_and_aspect sampleDevice sampleInit _ rfl hok).1.mpr (Or.inr (Or.inl rfl)),
    rfl⟩

/-! ## The render pass stage -/

/-- C9: whatever the depth/stencil format and the surface format of the object
are, `_InitRenderPass` makes exactly one device call, `vkCreateRenderPass`, and
the description it hands over has: two attachments, attachment 0 with the
depth/stencil format, load clear, store store, stencil load load, stencil store
store, initial layout undefined and final layout
depth-stencil-attachment-optimal, attachment 1 with the surface format, load
clear, store store, stencil load and store don't-care, initial layout undefined
and final layout present-source; one subpass, bound to the graphics pipeline,
whose one colour reference is attachment 1 in colour-attachment-optimal layout
and whose depth/stencil reference is attachment 0 in
depth-stencil-attachment-optimal layout, without input, resolve or preserve
attachments; no subpass dependencies; and every attachment index the subpass
refers to is below the attachment count. -/
theorem render_pass_description (d : Device) (w : Window) :
    (Window._InitRenderPass d w).calls
        = [Call.vkCreateRenderPass (Window.render_pass_create_info w)]
      ∧ (Window.render_pass_create_info w).attachmentCount = 2
      ∧ (Window.render_pass_create_info w).pAttachments
          = some
            [ { flags := 0
                format := w._depth_stencil_format
                samples := VK_SAMPLE_COUNT_1_BIT
                loadOp := VK_ATTACHMENT_LOAD_OP_CLEAR
                storeOp := VK_ATTACHMENT_STORE_OP_STORE
                stencilLoadOp := VK_ATTACHMENT_LOAD_OP_LOAD
                stencilStoreOp := VK_ATTACHMENT_STORE_OP_STORE
                initialLayout := VK_IMAGE_LAYOUT_UNDEFINED
                finalLayout := VK_IMAGE_LAYOUT_DEPTH_STENCIL_ATTACHMENT_OPTIMAL },
              { flags := 0
                format := w._surface_format.format
                samples := VK_SAMPLE_COUNT_1_BIT
                loadOp := VK_ATTACHMENT_LOAD_OP_CLEAR
                storeOp := VK_ATTACHMENT_STORE_OP_STORE
                stencilLoadOp := VK_ATTACHMENT_LOAD_OP_DONT_CARE
                stencilStoreOp := VK_ATTACHMENT_STORE_OP_DONT_CARE
                initialLayout := VK_IMAGE_LAYOUT_UNDEFINED
                finalLayout := VK_IMAGE_LAYOUT_PRESENT_SRC_KHR } ]
      ∧ (Window.render_pass_create_info w).subpassCount = 1
      ∧ (Window.render_pass_create_info w).pSubpasses
          = some
            [ { flags := 0
                pipelineBindPoint := VK_PIPELINE_BIND_POINT_GRAPHICS
                inputAttachmentCount := 0
                pInputAttachments := none
                colorAttachmentCount := 1
                pColorAttachments := some [⟨1, VK_IMAGE_LAYOUT_COLOR_ATTACHMENT_OPTIMAL⟩]
                pResolveAttachments := none
                pDepthStencilAttachment :=
                  some ⟨0, VK_IMAGE_LAYOUT_DEPTH_STENCIL_ATTACHMENT_OPTIMAL⟩
                preserveAttachmentCount := 0
                pPreserveAttachments := none } ]
      ∧ (Window.render_pass_create_info w).dependencyCount = 0
      ∧ (Window.render_pass_create_info w).pDependencies = none
      ∧ (∀ sp ∈ (Window.render_pass_create_info w).pSubpasses.getD [],
          ∀ i ∈ referencedAttachments sp,
            i < (Window.render_pass_create_info w).attachmentCount) := by
  refine ⟨?_, rfl, rfl, rfl, rfl, rfl, rfl, ?_⟩
  · simp only [Window._InitRenderPass, vkCreateRenderPass, Run.bind_eq, Run.pure_eq,
      Run.call_andThen, ErrorCheck_andThen]
    split_ifs <;> simp
  · intro sp hsp i hi
    simp only [Window.render_pass_create_info, Option.getD_some, List.mem_singleton] at hsp
    subst hsp
    simp only [referencedAttachments, Window.render_pass_create_info] at hi ⊢
    simp at hi
    rcases hi with hi | hi <;> subst hi <;> simp


/-! ## What each stage calls and leaves behind -/

theorem InitSurface_calls (d : Device) (w : Window) (c : Call)
    (hc : c ∈ (Window._InitSurface d w).calls) :
    c = Call.InitOSSurface ∨ c = Call.vkGetPhysicalDeviceSurfaceSupportKHR
      ∨ c = Call.vkGetPhysicalDeviceSurfaceCapabilitiesKHR
      ∨ c = Call.vkGetPhysicalDeviceSurfaceFormatsKHR := by
  simp only [Window._InitSurface, Window._InitOSSurface, vkGetPhysicalDeviceSurfaceSupportKHR,
    vkGetPhysicalDeviceSurfaceCapabilitiesKHR, vkGetPhysicalDeviceSurfaceFormatsKHR,
    Run.bind_eq, Run.pure_eq, Run.call_andThen] at hc
  revert hc
  cases hW : d.WSI_supported <;>
    by_cases hlen : d.surface_formats.length = 0 <;>
    simp [hlen] <;>
    (try split_ifs) <;> (try simp) <;> tauto

theorem InitSurface_construction (d : Device) (w w2 : Window)
    (hok : (Window._InitSurface d w).result = .ok w2) :
    construction (Window._InitSurface d w) = [Resource.surface] := by
  have hW : d.WSI_supported = true := by
    rw [InitSurface_result] at hok
    cases h : d.WSI_supported
    · simp [h] at hok
    · rfl
  have hlen : ¬ d.surface_formats.length = 0 := by
    rw [InitSurface_result] at hok
    intro h
    simp [hW, h] at hok
  simp only [construction, Window._InitSurface, Window._InitOSSurface,
    vkGetPhysicalDeviceSurfaceSupportKHR, vkGetPhysicalDeviceSurfaceCapabilitiesKHR,
    vkGetPhysicalDeviceSurfaceFormatsKHR, Run.bind_eq, Run.pure_eq, Run.call_andThen]
  simp [hW, hlen]
  split_ifs <;> simp [created]

theorem InitSwapchain_calls (d : Device) (w : Window) (c : Call)
    (hc : c ∈ (Window._InitSwapchain d w).calls) :
    c = Call.vkGetPhysicalDeviceSurfacePresentModesKHR
      ∨ c = Call.vkCreateSwapchainKHR (Window.swapchain_create_info (atSwapchainCreation w)
          (Window._InitSwapchain_present_mode d.present_modes VK_PRESENT_MODE_FIFO_KHR))
      ∨ c = Call.vkGetSwapchainImagesKHR := by
  simp only [Window._InitSwapchain, vkGetPhysicalDeviceSurfacePresentModesKHR,
    vkCreateSwapchainKHR, vkGetSwapchainImagesKHR, ErrorCheck_andThen, Run.bind_eq,
    Run.pure_eq, Run.call_andThen] at hc
  revert hc
  by_cases h1 : d.result Site.presentModeCount = VK_SUCCESS <;>
    by_cases h2 : d.result Site.presentModes = VK_SUCCESS <;>
    by_cases h3 : d.result Site.createSwapchain = VK_SUCCESS <;>
    by_cases h4 : d.result Site.swapchainImageCount = VK_SUCCESS <;>
    simp [h1, h2, h3, h4, atSwapchainCreation] <;> tauto

theorem InitSwapchain_ok (d : Device) (w w2 : Window)
    (hok : (Window._InitSwapchain d w).result = .ok w2) :
    w2 = { w with
        _swapchain_image_count := d.swapchain_images.length
        _swapchain := d.handle Site.createSwapchain }
      ∧ construction (Window._InitSwapchain d w) = [Resource.swapchain] := by
  simp only [construction, Window._InitSwapchain, vkGetPhysicalDeviceSurfacePresentModesKHR,
    vkCreateSwapchainKHR, vkGetSwapchainImagesKHR, ErrorCheck_andThen, Run.bind_eq,
    Run.pure_eq, Run.call_andThen] at hok ⊢
  revert hok
  by_cases h1 : d.result Site.presentModeCount = VK_SUCCESS <;>
    by_cases h2 : d.result Site.presentModes = VK_SUCCESS <;>
    by_cases h3 : d.result Site.createSwapchain = VK_SUCCESS <;>
    by_cases h4 : d.result Site.swapchainImageCount = VK_SUCCESS <;>
    simp [h1, h2, h3, h4, created]
  intro h
  exact h.symm

theorem render_pass_calls (d : Device) (w : Window) :
    (Window._InitRenderPass d w).calls
      = [Call.vkCreateRenderPass (Window.render_pass_create_info w)] := by
  simp only [Window._InitRenderPass, vkCreateRenderPass, Run.bind_eq, Run.pure_eq,
    Run.call_andThen, ErrorCheck_andThen]
  split_ifs <;> simp

theorem InitRenderPass_ok (d : Device) (w w2 : Window)
    (hok : (Window._InitRenderPass d w).result = .ok w2) :
    w2 = { w with _render_pass := d.handle Site.createRenderPass }
      ∧ construction (Window._InitRenderPass d w) = [Resource.renderPass] := by
  simp only [construction, Window._InitRenderPass, vkCreateRenderPass, ErrorCheck_andThen,
    Run.bind_eq, Run.pure_eq, Run.call_andThen] at hok ⊢
  revert hok
  by_cases h1 : d.result Site.createRenderPass = VK_SUCCESS <;> simp [h1, created]
  intro h
  exact h.symm

theorem images_loop_spec (d : Device) (todo : Nat) :
    ∀ (i : Nat) (w : Window),
      (∀ c ∈ (Window._InitSwapchainImages_loop d todo i w).calls,
          ∃ info, c = Call.vkCreateImageView ViewKind.swapchainImage info)
        ∧ (∀ w2, (Window._InitSwapchainImages_loop d todo i w).result = .ok w2 →
            w2 = { w with _swapchain_image_views := w2._swapchain_image_views }
              ∧ w2._swapchain_image_views.length = w._swapchain_image_views.length
              ∧ (Window._InitSwapchainImages_loop d todo i w).calls.length = todo) := by
  induction todo with
  | zero =>
    intro i w
    simp [Window._InitSwapchainImages_loop]
  | succ n ih =>
    intro i w
    simp only [Window._InitSwapchainImages_loop, vkCreateImageView, ErrorCheck_andThen,
      Run.bind_eq, Run.pure_eq, Run.call_andThen]
    by_cases h1 : d.result (Site.createSwapchainImageView i) = VK_SUCCESS
    · simp only [h1, if_true]
      obtain ⟨hcalls, hres⟩ := ih (i + 1)
        { w with
          _swapchain_image_views :=
            w._swapchain_image_views.set i (d.handle (Site.createSwapchainImageView i)) }
      constructor
      · intro c hc
        rcases List.mem_cons.mp hc with hc | hc
        · exact ⟨_, hc⟩
        · exact hcalls c hc
      · intro w2 hw2
        obtain ⟨hw, hlen, hn⟩ := hres w2 hw2
        refine ⟨?_, ?_, ?_⟩
        · rw [hw]
        · rw [hlen]
          simp
        · simp [hn]
    · simp [h1]


theorem resize_length (l : List VkHandle) (n : Nat) : (resize l n).length = n := by
  unfold resize
  simp only [List.length_append, List.length_take, List.length_replicate]
  omega

theorem filterMap_eq_replicate {α β : Type} (f : α → Option β) (b : β) (l : List α)
    (h : ∀ a ∈ l, f a = some b) : l.filterMap f = List.replicate l.length b := by
  induction l with
  | nil => rfl
  | cons a rest ih =>
    have ha := h a (List.mem_cons_self a rest)
    rw [List.filterMap_cons_some ha, ih (fun x hx => h x (List.mem_cons_of_mem a hx))]
    rfl

theorem filterMap_eq_nil_of_none {α β : Type} (f : α → Option β) (l : List α)
    (h : ∀ a ∈ l, f a = none) : l.filterMap f = [] := by
  induction l with
  | nil => rfl
  | cons a rest ih =>
    have ha := h a (List.mem_cons_self a rest)
    rw [List.filterMap_cons_none ha, ih (fun x hx => h x (List.mem_cons_of_mem a hx))]

theorem InitSwapchainImages_calls (d : Device) (w : Window) (c : Call)
    (hc : c ∈ (Window._InitSwapchainImages d w).calls) :
    c = Call.vkGetSwapchainImagesKHR
      ∨ ∃ info, c = Call.vkCreateImageView ViewKind.swapchainImage info := by
  simp only [Window._InitSwapchainImages, vkGetSwapchainImagesKHR, ErrorCheck_andThen,
    Run.bind_eq, Run.pure_eq, Run.call_andThen, List.mem_cons] at hc
  rcases hc with hc | hc
  · exact Or.inl hc
  · split at hc
    · exact Or.inr ((images_loop_spec d _ _ _).1 c hc)
    · simp at hc

theorem InitSwapchainImages_ok (d : Device) (w w2 : Window)
    (hok : (Window._InitSwapchainImages d w).result = .ok w2) :
    w2._surface_size_x = w._surface_size_x
      ∧ w2._surface_size_y = w._surface_size_y
      ∧ w2._swapchain_image_count = min w._swapchain_image_count d.swapchain_images.length
      ∧ w2._swapchain_image_views.length = w._swapchain_image_count
      ∧ construction (Window._InitSwapchainImages d w)
          = List.replicate (min w._swapchain_image_count d.swapchain_images.length)
              Resource.swapchainImageView := by
  simp only [construction, Window._InitSwapchainImages, vkGetSwapchainImagesKHR,
    ErrorCheck_andThen, Run.bind_eq, Run.pure_eq, Run.call_andThen] at hok ⊢
  by_cases h1 : d.result Site.swapchainImages = VK_SUCCESS
  · simp only [h1, if_true] at hok ⊢
    obtain ⟨hcalls, hres⟩ := images_loop_spec d _ _ _
    obtain ⟨hw, hlen, hn⟩ := hres w2 hok
    refine ⟨?_, ?_, ?_, ?_, ?_⟩
    · rw [hw]
    · rw [hw]
    · rw [hw]
    · rw [hlen]
      exact resize_length _ _
    · rw [List.filterMap_cons_none (by rfl)]
      rw [filterMap_eq_replicate created Resource.swapchainImageView _ ?_, hn]
      intro c hc
      obtain ⟨info, hinfo⟩ := hcalls c hc
      rw [hinfo]
      rfl
  · simp [h1] at hok

theorem InitDepthStencilImage_calls (d : Device) (w : Window) (c : Call)
    (hc : c ∈ (Window._InitDepthStencilImage d w).calls) :
    (∃ f, c = Call.vkGetPhysicalDeviceFormatProperties f)
      ∨ c ∈ depthStencilCalls d (afterDepthStencil d
          { w with _depth_stencil_format := formatAfterLoop d Window.try_formats w }) := by
  rw [InitDepthStencilImage_eq] at hc
  split_ifs at hc
  · exact Or.inl (depth_loop_calls d _ _ _ hc)
  · rcases List.mem_append.mp hc with hc | hc
    · exact Or.inl (depth_loop_calls d _ _ _ hc)
    · exact Or.inr hc

theorem InitDepthStencilImage_ok (d : Device) (w w2 : Window)
    (hok : (Window._InitDepthStencilImage d w).result = .ok w2) :
    w2._surface_size_x = w._surface_size_x
      ∧ w2._surface_size_y = w._surface_size_y
      ∧ w2._swapchain_image_count = w._swapchain_image_count
      ∧ w2._swapchain_image_views = w._swapchain_image_views
      ∧ construction (Window._InitDepthStencilImage d w)
          = [Resource.depthStencilImage, Resource.depthStencilMemory,
              Resource.depthStencilView] := by
  rw [InitDepthStencilImage_eq] at hok ⊢
  by_cases hfmt : formatAfterLoop d Window.try_formats w = VK_FORMAT_UNDEFINED
  · rw [if_pos hfmt] at hok
    cases hok
  · rw [if_neg hfmt] at hok ⊢
    simp only at hok
    cases hok
    refine ⟨rfl, rfl, rfl, rfl, ?_⟩
    simp only [construction, List.filterMap_append]
    rw [filterMap_eq_nil_of_none created _ ?_]
    · rfl
    · intro c hc
      obtain ⟨f, hf⟩ := depth_loop_calls d _ _ _ hc
      rw [hf]
      rfl

theorem deinit_images_loop (l : List VkHandle) :
    Window._DeInitSwapchainImages_loop l
      = ⟨l.map (Call.vkDestroyImageView ViewKind.swapchainImage), .ok ()⟩ := by
  induction l with
  | nil => rfl
  | cons view rest ih =>
    simp only [Window._DeInitSwapchainImages_loop, Run.bind_eq, Run.call_andThen, ih,
      List.map_cons]

theorem dtor_eq (w : Window) :
    Window.dtor w
      = ⟨[Call.vkDestroyRenderPass w._render_pass,
            Call.vkDestroyImageView ViewKind.depthStencil w._depth_stencil_image_view,
            Call.vkFreeMemory w._depth_stencil_image_memory,
            Call.vkDestroyImage w._depth_stencil_image]
          ++ w._swapchain_image_views.map (Call.vkDestroyImageView ViewKind.swapchainImage)
          ++ [Call.vkDestroySwapchainKHR w._swapchain, Call.vkDestroySurfaceKHR w._surface,
            Call.DeInitOSWindow],
        .ok w⟩ := by
  simp only [Window.dtor, Window._DeInitRenderPass, Window._DeInitDepthStencilImage,
    Window._DeInitSwapchainImages, Window._DeInitSwapchain, Window._DeInitSurface,
    Window._DeInitOSWindow, deinit_images_loop, Run.bind_eq, Run.pure_eq, Run.call_andThen,
    Run.ret_calls, Run.ret_result, Run.call_calls, Run.call_result, Run.andThen]
  simp

theorem ctor_eq (d : Device) (init : Window) (size_x size_y : Nat) (name : String) :
    Window.ctor d init size_x size_y name
      = Run.andThen (Window._InitOSWindow d
          { init with
            _surface_size_x := size_x
            _surface_size_y := size_y
            _window_name := name }) fun w1 =>
        Run.andThen (Window._InitSurface d w1) fun w2 =>
        Run.andThen (Window._InitSwapchain d w2) fun w3 =>
        Run.andThen (Window._InitSwapchainImages d w3) fun w4 =>
        Run.andThen (Window._InitDepthStencilImage d w4) fun w5 =>
        Window._InitRenderPass d w5 := rfl


/-! ## Construction and teardown -/

theorem construction_andThen {α β : Type} (x : Run α) (f : α → Run β) (a : α)
    (h : x.result = .ok a) :
    construction (Run.andThen x f) = construction x ++ construction (f a) := by
  unfold construction
  rw [(Run.andThen_of_ok x f a h).1, List.filterMap_append]

theorem ctor_construction (d : Device) (init : Window) (size_x size_y : Nat) (name : String)
    (w : Window) (hok : (Window.ctor d init size_x size_y name).result = .ok w) :
    construction (Window.ctor d init size_x size_y name)
        = [Resource.osWindow, Resource.surface, Resource.swapchain]
          ++ List.replicate w._swapchain_image_count Resource.swapchainImageView
          ++ [Resource.depthStencilImage, Resource.depthStencilMemory,
              Resource.depthStencilView, Resource.renderPass]
      ∧ w._swapchain_image_views.length = w._swapchain_image_count := by
  rw [ctor_eq] at hok ⊢
  obtain ⟨w1, h1, hok⟩ := (Run.andThen_result_ok _ _ _).mp hok
  obtain ⟨w2, h2, hok⟩ := (Run.andThen_result_ok _ _ _).mp hok
  obtain ⟨w3, h3, hok⟩ := (Run.andThen_result_ok _ _ _).mp hok
  obtain ⟨w4, h4, hok⟩ := (Run.andThen_result_ok _ _ _).mp hok
  obtain ⟨w5, h5, hok⟩ := (Run.andThen_result_ok _ _ _).mp hok
  rw [construction_andThen _ _ w1 h1, construction_andThen _ _ w2 h2,
    construction_andThen _ _ w3 h3, construction_andThen _ _ w4 h4,
    construction_andThen _ _ w5 h5]
  have c2 := InitSurface_construction d w1 w2 h2
  obtain ⟨e3, c3⟩ := InitSwapchain_ok d w2 w3 h3
  obtain ⟨_, _, n4, v4, c4⟩ := InitSwapchainImages_ok d w3 w4 h4
  obtain ⟨_, _, n5, v5, c5⟩ := InitDepthStencilImage_ok d w4 w5 h5
  obtain ⟨e6, c6⟩ := InitRenderPass_ok d w5 w hok
  have hcount3 : w3._swapchain_image_count = d.swapchain_images.length := by
    rw [e3]
  have hcount : w._swapchain_image_count = d.swapchain_images.length := by
    rw [e6]
    simp only
    rw [n5, n4, hcount3, Nat.min_self]
  have hviews : w._swapchain_image_views.length = d.swapchain_images.length := by
    rw [e6]
    simp only
    rw [v5, v4, hcount3]
  rw [c2, c3, c4, c5, c6, hcount3, Nat.min_self, hcount]
  refine ⟨?_, hviews⟩
  simp [construction, Window._InitOSWindow, created]

theorem dtor_teardown (w : Window) :
    teardown (Window.dtor w)
      = [Resource.renderPass, Resource.depthStencilView, Resource.depthStencilMemory,
          Resource.depthStencilImage]
        ++ List.replicate w._swapchain_image_views.length Resource.swapchainImageView
        ++ [Resource.swapchain, Resource.surface, Resource.osWindow] := by
  rw [dtor_eq]
  simp only [teardown, List.filterMap_append]
  rw [filterMap_eq_replicate destroyed Resource.swapchainImageView
    (w._swapchain_image_views.map (Call.vkDestroyImageView ViewKind.swapchainImage)) ?_]
  · simp [destroyed]
  · intro c hc
    obtain ⟨v, _, hv⟩ := List.mem_map.mp hc
    rw [← hv]
    rfl

/-- C6: when the constructor runs to its end, the resources it brings into
being are, in order, the OS window, the surface, the swapchain, one view per
swapchain image, the depth/stencil image, its memory, its view, and the render
pass; the destructor of the object so built runs to its end and releases the
render pass, the depth/stencil view, the depth/stencil memory, the
depth/stencil image, the swapchain image views, the swapchain, the surface and
the OS window, in this order, which is exactly the reverse of the order of
construction. -/
theorem teardown_reverses_construction (d : Device) (init : Window) (size_x size_y : Nat)
    (name : String) (w : Window)
    (hok : (Window.ctor d init size_x size_y name).result = .ok w) :
    construction (Window.ctor d init size_x size_y name)
        = [Resource.osWindow, Resource.surface, Resource.swapchain]
          ++ List.replicate w._swapchain_image_count Resource.swapchainImageView
          ++ [Resource.depthStencilImage, Resource.depthStencilMemory,
              Resource.depthStencilView, Resource.renderPass]
      ∧ teardown (Window.dtor w)
        = [Resource.renderPass, Resource.depthStencilView, Resource.depthStencilMemory,
            Resource.depthStencilImage]
          ++ List.replicate w._swapchain_image_count Resource.swapchainImageView
          ++ [Resource.swapchain, Resource.surface, Resource.osWindow]
      ∧ teardown (Window.dtor w)
        = (construction (Window.ctor d init size_x size_y name)).reverse
      ∧ (Window.dtor w).result = .ok w := by
  obtain ⟨hc, hviews⟩ := ctor_construction d init size_x size_y name w hok
  have ht := dtor_teardown w
  rw [hviews] at ht
  refine ⟨hc, ht, ?_, ?_⟩
  · rw [ht, hc]
    simp
  · rw [dtor_eq]

theorem sample_ctor_result :
    (Window.ctor sampleDevice sampleInit 640 480 "sample").result = .ok sampleWindow := by
  rfl

/-- On the sample device, with three swapchain images, ten resources are built
and then released in the opposite order. -/
theorem teardown_reverses_construction_witness :
    (Window.ctor sampleDevice sampleInit 640 480 "sample").result = .ok sampleWindow
      ∧ teardown (Window.dtor sampleWindow)
        = [Resource.renderPass, Resource.depthStencilView, Resource.depthStencilMemory,
            Resource.depthStencilImage, Resource.swapchainImageView,
            Resource.swapchainImageView, Resource.swapchainImageView,
            Resource.swapchain, Resource.surface, Resource.osWindow] :=
  ⟨sample_ctor_result,
    (teardown_reverses_construction sampleDevice sampleInit 640 480 "sample" sampleWindow
      sample_ctor_result).2.1⟩


/-! ## The surface size through the stages -/

namespace Run

theorem Sat.andThen {α β : Type} {x : Run α} {f : α → Run β} {Q : Call → Prop}
    {R : α → Prop} {P : β → Prop} (hx : Sat x Q R) (hf : ∀ a, R a → Sat (f a) Q P) :
    Sat (Run.andThen x f) Q P := by
  constructor
  · intro c hc
    rcases mem_andThen_calls x f c hc with h | ⟨a, ha, h⟩
    · exact hx.1 c h
    · exact (hf a (hx.2 a ha)).1 c h
  · intro b hb
    obtain ⟨a, ha, hfa⟩ := (andThen_result_ok x f b).mp hb
    exact (hf a (hx.2 a ha)).2 b hfa

end Run

theorem ctor_sat (d : Device) (init : Window) (size_x size_y : Nat) (name : String)
    (sx sy : Nat)
    (hsize : surfaceSize d
      { init with
        _surface_size_x := size_x
        _surface_size_y := size_y
        _window_name := name } = (sx, sy)) :
    Run.Sat (Window.ctor d init size_x size_y name) (extentIs sx sy) (sizeIs sx sy) := by
  rw [ctor_eq]
  refine Run.Sat.andThen (R := fun w1 => w1 = { init with
        _surface_size_x := size_x
        _surface_size_y := size_y
        _window_name := name }) ?_ ?_
  · constructor
    · intro c hc
      simp only [Window._InitOSWindow, Run.call_calls, List.mem_singleton] at hc
      subst hc
      constructor <;> intro info h <;> cases h
    · intro a ha
      simp only [Window._InitOSWindow, Run.call_result, Except.ok.injEq] at ha
      exact ha.symm
  intro w1 hw1
  subst hw1
  refine Run.Sat.andThen (R := sizeIs sx sy) ?_ ?_
  · constructor
    · intro c hc
      rcases InitSurface_calls d _ c hc with h | h | h | h <;> subst h <;>
        constructor <;> intro info h <;> cases h
    · intro w2 hw2
      rw [InitSurface_result] at hw2
      split_ifs at hw2
      cases hw2
      rw [hsize]
      exact ⟨rfl, rfl⟩
  intro w2 hw2
  refine Run.Sat.andThen (R := sizeIs sx sy) ?_ ?_
  · constructor
    · intro c hc
      rcases InitSwapchain_calls d _ c hc with h | h | h <;> subst h
      · constructor <;> intro info h <;> cases h
      · constructor
        · intro info h
          cases h
          exact hw2
        · intro info h
          cases h
      · constructor <;> intro info h <;> cases h
    · intro w3 hw3
      rw [(InitSwapchain_ok d w2 w3 hw3).1]
      exact hw2
  intro w3 hw3
  refine Run.Sat.andThen (R := sizeIs sx sy) ?_ ?_
  · constructor
    · intro c hc
      rcases InitSwapchainImages_calls d _ c hc with h | ⟨i, h⟩ <;> subst h <;>
        constructor <;> intro info h <;> cases h
    · intro w4 hw4
      obtain ⟨hx, hy, _⟩ := InitSwapchainImages_ok d w3 w4 hw4
      exact ⟨hx.trans hw3.1, hy.trans hw3.2⟩
  intro w4 hw4
  refine Run.Sat.andThen (R := sizeIs sx sy) ?_ ?_
  · constructor
    · intro c hc
      rcases InitDepthStencilImage_calls d _ c hc with ⟨f, h⟩ | h
      · subst h
        constructor <;> intro info h <;> cases h
      · simp only [depthStencilCalls, List.mem_cons, List.mem_singleton, List.mem_nil_iff,
          or_false] at h
        rcases h with h | h | h | h | h <;> subst h
        · constructor
          · intro info h
            cases h
          · intro info h
            cases h
            exact hw4
        all_goals constructor <;> intro info h <;> cases h
    · intro w5 hw5
      obtain ⟨hx, hy, _⟩ := InitDepthStencilImage_ok d w4 w5 hw5
      exact ⟨hx.trans hw4.1, hy.trans hw4.2⟩
  intro w5 hw5
  constructor
  · intro c hc
    rw [(render_pass_calls d w5)] at hc
    simp only [List.mem_singleton] at hc
    subst hc
    constructor <;> intro info h <;> cases h
  · intro w6 hw6
    rw [(InitRenderPass_ok d w5 w6 hw6).1]
    exact hw5


theorem ctor_sizeThroughout (d : Device) (init : Window) (size_x size_y : Nat) (name : String)
    (sx sy : Nat)
    (hsize : surfaceSize d
      { init with
        _surface_size_x := size_x
        _surface_size_y := size_y
        _window_name := name } = (sx, sy)) :
    sizeThroughout (Window.ctor d init size_x size_y name) sx sy := by
  obtain ⟨hcalls, hres⟩ := ctor_sat d init size_x size_y name sx sy hsize
  exact ⟨fun info h => (hcalls _ h).1 info rfl, fun info h => (hcalls _ h).2 info rfl, hres⟩

/-- C8: whatever size the caller asks for and whatever current extent the
device reports: when `_InitSurface` runs to its end, the surface size of the
object is the reported width and height if the reported width is below
`UINT32_MAX`, and is left as it was if it is not; and in a run of the
constructor asked for `size_x` by `size_y`, every swapchain and every
depth/stencil image that is created is asked to have that resulting size as
its extent, which is also the size the finished object holds: the reported
extent when its width is below `UINT32_MAX`, whatever the caller asked for,
and `size_x` by `size_y` otherwise. -/
theorem surface_size_and_extents (d : Device) (init : Window) (size_x size_y : Nat)
    (name : String) :
    (∀ w w2, (Window._InitSurface d w).result = .ok w2 →
        (d.surface_capabilities.currentExtent.width < UINT32_MAX →
            w2._surface_size_x = d.surface_capabilities.currentExtent.width
              ∧ w2._surface_size_y = d.surface_capabilities.currentExtent.height)
          ∧ (¬ d.surface_capabilities.currentExtent.width < UINT32_MAX →
            w2._surface_size_x = w._surface_size_x
              ∧ w2._surface_size_y = w._surface_size_y))
      ∧ (d.surface_capabilities.currentExtent.width < UINT32_MAX →
          sizeThroughout (Window.ctor d init size_x size_y name)
            d.surface_capabilities.currentExtent.width
            d.surface_capabilities.currentExtent.height)
      ∧ (¬ d.surface_capabilities.currentExtent.width < UINT32_MAX →
          sizeThroughout (Window.ctor d init size_x size_y name) size_x size_y) := by
  refine ⟨?_, ?_, ?_⟩
  · intro w w2 hok
    rw [InitSurface_result] at hok
    split_ifs at hok
    cases hok
    constructor
    · intro h
      simp [surfaceSize, h]
    · intro h
      simp [surfaceSize, h]
  · intro h
    apply ctor_sizeThroughout
    simp [surfaceSize, h]
  · intro h
    apply ctor_sizeThroughout
    simp [surfaceSize, h]

/-- On the sample device, which reports a current extent of 800 by 600, a
window asked for at 640 by 480 ends with a surface, a swapchain and a
depth/stencil image of 800 by 600. -/
theorem surface_size_and_extents_witness :
    sampleDevice.surface_capabilities.currentExtent.width < UINT32_MAX
      ∧ (Window.ctor sampleDevice sampleInit 640 480 "sample").result = .ok sampleWindow
      ∧ sampleWindow._surface_size_x = 800
      ∧ sampleWindow._surface_size_y = 600
      ∧ sizeThroughout (Window.ctor sampleDevice sampleInit 640 480 "sample") 800 600 :=
  ⟨by decide, sample_ctor_result, rfl, rfl,
    (surface_size_and_extents sampleDevice sampleInit 640 480 "sample").2.1 (by decide)⟩

/-! ## Device calls whose result code is dropped -/

/-- C3 fails on the code: a device on which `vkCreateImage` (line 236) reports
`VK_ERROR_OUT_OF_DEVICE_MEMORY` does not stop the constructor.  It goes on to
ask for the memory requirements of the image, to allocate and bind memory, to
create the view and the render pass, and ends as on a device without any
failure; the same holds when the failing call is `vkAllocateMemory`,
`vkBindImageMemory` or the `vkCreateImageView` of line 266.  The same result
code from `vkCreateSwapchainKHR`, which line 144 passes to `ErrorCheck`, ends
the run at once. -/
theorem failed_depth_stencil_calls_not_fatal :
    (failingAt Site.createDepthStencilImage).result Site.createDepthStencilImage
        = VK_ERROR_OUT_OF_DEVICE_MEMORY
      ∧ (Window.ctor (failingAt Site.createDepthStencilImage) sampleInit 640 480
          "sample").result = .ok sampleWindow
      ∧ ((Window.ctor (failingAt Site.createDepthStencilImage) sampleInit 640 480
          "sample").calls.drop 16).map (fun c => created c)
        = [some Resource.depthStencilImage, none, some Resource.depthStencilMemory, none,
            some Resource.depthStencilView, some Resource.renderPass]
      ∧ (Window.ctor (failingAt Site.allocateDepthStencilMemory) sampleInit 640 480
          "sample").result = .ok sampleWindow
      ∧ (Window.ctor (failingAt Site.bindDepthStencilMemory) sampleInit 640 480
          "sample").result = .ok sampleWindow
      ∧ (Window.ctor (failingAt Site.createDepthStencilImageView) sampleInit 640 480
          "sample").result = .ok sampleWindow
      ∧ (Window.ctor (failingAt Site.createSwapchain) sampleInit 640 480 "sample").result
        = .error (Fatal.vulkanRuntimeError VK_ERROR_OUT_OF_DEVICE_MEMORY) := by
  refine ⟨?_, ?_, ?_, ?_, ?_, ?_, ?_⟩
  · decide
  · rfl
  · rfl
  · rfl
  · rfl
  · rfl
  · rfl

end VkTutorial
